import Mathlib

/-!
# Verification of the ESP load-header image loader

Shallow embedding of `boot/espressif/port/esp_loader.c`:
`load_segment` and `esp_app_image_load`.

The C function talks to its collaborators (flash map, flash mapping unit,
memory-layout predicates, UART, fatal halt) through calls; the embedding
records every such call as an `Event` of a chronological trace and carries
the destination memory explicitly.  Unsigned 32-bit arithmetic is arithmetic
on `Nat` reduced modulo `2 ^ 32`.
-/

namespace EspLoader

/-- Value of the macro `ESP_LOAD_HEADER_MAGIC` (line 26). -/
def ESP_LOAD_HEADER_MAGIC : Nat := 0xace637d3

/-- Modulus of `uint32_t` arithmetic. -/
def UINT32_MOD : Nat := 2 ^ 32

/-- The struct `image_load_header_t` (lines 31-40): eight `uint32_t` fields. -/
structure image_load_header where
  header_magic : Nat
  entry_addr : Nat
  iram_dest_addr : Nat
  iram_flash_offset : Nat
  iram_size : Nat
  dram_dest_addr : Nat
  dram_flash_offset : Nat
  dram_size : Nat
deriving DecidableEq, Repr

/-- Value of `sizeof(image_load_header_t)`: eight 4-byte words. -/
def SIZEOF_LOAD_HEADER : Nat := 32

/-- The diagnostic messages of the file, one constructor per format string. -/
inductive LogMsg where
  /-- Line 65: "%s: flash_area_open failed with %d". -/
  | flash_area_open_failed (rc : Int)
  /-- Line 46: "%s: Bootloader mmap failed". -/
  | mmap_failed
  /-- Line 73: "Load header magic verification failed. Aborting". -/
  | header_magic
  /-- Line 78: "IRAM region in load header is not valid. Aborting". -/
  | iram_region
  /-- Line 83: "DRAM region in load header is not valid. Aborting". -/
  | dram_region
  /-- Line 88: "Application entry point (0x%x) is not in IRAM. Aborting". -/
  | entry_point (entry_addr : Nat)
  /-- Line 92: "DRAM segment: start=0x%x, size=0x%x, vaddr=0x%x". -/
  | dram_segment (start size vaddr : Nat)
  /-- Line 95: "IRAM segment: start=0x%x, size=0x%x, vaddr=0x%x". -/
  | iram_segment (start size vaddr : Nat)
  /-- Line 98: "start=0x%x". -/
  | start (entry_addr : Nat)
deriving DecidableEq, Repr

/-- A pointer returned by `bootloader_mmap`: `none` is `NULL`, `some a` is a
view whose first byte is the flash byte at address `a`. -/
abbrev ViewPtr := Option Nat

/-- Observable actions of the loader, in the order the C code performs them. -/
inductive Event where
  /-- Call `flash_area_open(area_id, &fap)` with its return code. -/
  | flash_area_open (area_id : Int) (rc : Int)
  /-- Call of `BOOT_LOG_ERR`. -/
  | log_err (msg : LogMsg)
  /-- Call of `BOOT_LOG_INF`. -/
  | log_inf (msg : LogMsg)
  /-- Call `bootloader_mmap(src_addr, size)` with the pointer it returned. -/
  | bootloader_mmap (src_addr size : Nat) (result : ViewPtr)
  /-- Line 69: `memcpy(&load_header, data, sizeof(image_load_header_t))`. -/
  | memcpy_header (data : ViewPtr)
  /-- Line 49: `memcpy((void *)load_addr, data, data_len)`. -/
  | memcpy_segment (load_addr : Nat) (data : ViewPtr) (data_len : Nat)
  /-- Call `bootloader_munmap(data)`. -/
  | bootloader_munmap (data : ViewPtr)
  /-- Entry into `load_segment(fap, data_addr, data_len, load_addr)`. -/
  | load_segment (data_addr data_len load_addr : Nat)
  /-- Call `uart_tx_wait_idle(port)`. -/
  | uart_tx_wait_idle (port : Nat)
  /-- Line 101: the call through the entry address. -/
  | call_entry (entry_addr : Nat)
  /-- The fatal halt `FIH_PANIC`. -/
  | fih_panic
deriving DecidableEq, Repr

/-- The collaborators of the loader whose code is outside the file. -/
structure Env where
  /-- Function `flash_area_id_from_image_slot`. -/
  flash_area_id_from_image_slot : Int → Int
  /-- Function `flash_area_open`: return code, and the value that
  `fap->fa_off` yields afterwards (whatever the handle holds when the return
  code is non-zero). -/
  flash_area_open : Int → Int × Nat
  /-- Content of the flash, byte by byte. -/
  flash : Nat → Nat
  /-- Whether the `n`-th call of `bootloader_mmap` (counted from 0), made with
  the given source address and size, yields a view. -/
  mmap_ok : Nat → Nat → Nat → Bool
  /-- What a byte read through the `NULL` pointer at a given offset yields. -/
  null_read : Nat → Nat
  /-- Predicate `esp_ptr_in_iram` of `soc/soc_memory_layout.h`. -/
  esp_ptr_in_iram : Nat → Bool
  /-- Predicate `esp_ptr_in_dram` of `soc/soc_memory_layout.h`. -/
  esp_ptr_in_dram : Nat → Bool
  /-- Whether the call through the given entry address returns. -/
  entry_returns : Nat → Bool

/-- Machine state threaded through the loader. -/
structure State where
  /-- Byte-addressed destination memory. -/
  mem : Nat → Nat
  /-- Actions performed so far, oldest first. -/
  trace : List Event
  /-- Number of `bootloader_mmap` calls made so far. -/
  mmap_calls : Nat

/-- State at entry of `esp_app_image_load`. -/
def State.init (mem : Nat → Nat) : State := ⟨mem, [], 0⟩

/-- Append one action to the trace. -/
def State.emit (s : State) (e : Event) : State := ⟨s.mem, s.trace ++ [e], s.mmap_calls⟩

/-- The byte stored at flash address `a`. -/
def flash_byte (env : Env) (a : Nat) : Nat := env.flash a % 256

/-- Byte `i` seen through a pointer returned by `bootloader_mmap`. -/
def view_byte (env : Env) (data : ViewPtr) (i : Nat) : Nat :=
  match data with
  | some a => flash_byte env (a + i)
  | none => env.null_read i % 256

/-- Call of `bootloader_mmap(src_addr, size)`. -/
def bootloader_mmap (env : Env) (s : State) (src_addr size : Nat) : ViewPtr × State :=
  let data : ViewPtr := if env.mmap_ok s.mmap_calls src_addr size then some src_addr else none
  (data, ⟨s.mem, s.trace ++ [Event.bootloader_mmap src_addr size data], s.mmap_calls + 1⟩)

/-- Call of `bootloader_munmap(data)`. -/
def bootloader_munmap (s : State) (data : ViewPtr) : State :=
  s.emit (Event.bootloader_munmap data)

/-- The library function `memcpy(dst, src, n)` on the destination memory: byte
`i` of the source is stored at `dst + i`, for `i = 0, ..., n - 1`. -/
def memcpy (mem : Nat → Nat) (dst : Nat) (src : Nat → Nat) (n : Nat) : Nat → Nat :=
  (List.range n).foldl (fun m i => Function.update m (dst + i) (src i)) mem

/-- A little-endian `uint32_t` at byte offset `off` of a byte source. -/
def read_u32 (src : Nat → Nat) (off : Nat) : Nat :=
  src off + 256 * src (off + 1) + 65536 * src (off + 2) + 16777216 * src (off + 3)

/-- The struct overlay of line 69: the 32 bytes copied into `load_header`,
field by field in declaration order. -/
def decode_header (src : Nat → Nat) : image_load_header where
  header_magic := read_u32 src 0
  entry_addr := read_u32 src 4
  iram_dest_addr := read_u32 src 8
  iram_flash_offset := read_u32 src 12
  iram_size := read_u32 src 16
  dram_dest_addr := read_u32 src 20
  dram_flash_offset := read_u32 src 24
  dram_size := read_u32 src 28

/-- Modelled from the spec: the macro `FIH_PANIC` of
`bootutil/fault_injection_hardening.h` is the fatal halt primitive, a
process-wide irrecoverable halt with no return; nothing runs after it. -/
def FIH_PANIC (s : State) : State := s.emit Event.fih_panic

/-- The function `load_segment` (lines 42-52). -/
def load_segment (env : Env) (s : State) (fa_off data_addr data_len load_addr : Nat) :
    Int × State :=
  let s := s.emit (Event.load_segment data_addr data_len load_addr)
  let r := bootloader_mmap env s ((fa_off + data_addr) % UINT32_MOD) data_len
  let data := r.1
  let s := r.2
  match data with
  | none => (-1, s.emit (Event.log_err LogMsg.mmap_failed))
  | some a =>
    let s : State := ⟨memcpy s.mem load_addr (view_byte env (some a)) data_len,
      s.trace ++ [Event.memcpy_segment load_addr (some a) data_len], s.mmap_calls⟩
    let s := bootloader_munmap s (some a)
    (0, s)

/-- Result of lines 62-70 of `esp_app_image_load`. -/
structure HeaderRead where
  /-- Value of `fap->fa_off`. -/
  fa_off : Nat
  /-- The local `load_header` after the `memcpy` of line 69. -/
  load_header : image_load_header
  /-- State after line 70. -/
  state : State

/-- Lines 62-70 of `esp_app_image_load`: slot resolution and header read. -/
def read_load_header (env : Env) (mem : Nat → Nat) (slot : Int) (hdr_offset : Nat) :
    HeaderRead :=
  let s := State.init mem
  let area_id := env.flash_area_id_from_image_slot slot
  let rc := (env.flash_area_open area_id).1
  let fa_off := (env.flash_area_open area_id).2
  let s := s.emit (Event.flash_area_open area_id rc)
  let s := if rc != 0 then s.emit (Event.log_err (LogMsg.flash_area_open_failed rc)) else s
  let r := bootloader_mmap env s ((fa_off + hdr_offset) % UINT32_MOD) SIZEOF_LOAD_HEADER
  let data := r.1
  let s := r.2
  let load_header := decode_header (view_byte env data)
  let s := s.emit (Event.memcpy_header data)
  let s := bootloader_munmap s data
  ⟨fa_off, load_header, s⟩

/-- Lines 92-102 of `esp_app_image_load`: both segment loads, the transmit
drain and the call through the entry address. -/
def load_and_start (env : Env) (s : State) (fa_off : Nat) (load_header : image_load_header) :
    State :=
  let s := s.emit (Event.log_inf (LogMsg.dram_segment load_header.dram_flash_offset
    load_header.dram_size load_header.dram_dest_addr))
  let s := (load_segment env s fa_off load_header.dram_flash_offset load_header.dram_size
    load_header.dram_dest_addr).2
  let s := s.emit (Event.log_inf (LogMsg.iram_segment load_header.iram_flash_offset
    load_header.iram_size load_header.iram_dest_addr))
  let s := (load_segment env s fa_off load_header.iram_flash_offset load_header.iram_size
    load_header.iram_dest_addr).2
  let s := s.emit (Event.log_inf (LogMsg.start load_header.entry_addr))
  let s := s.emit (Event.uart_tx_wait_idle 0)
  let s := s.emit (Event.call_entry load_header.entry_addr)
  if env.entry_returns load_header.entry_addr then FIH_PANIC s else s

/-- Condition of the `if` of line 72. -/
def magic_check_fails (load_header : image_load_header) : Bool :=
  load_header.header_magic != ESP_LOAD_HEADER_MAGIC

/-- Condition of the `if` of line 77; the sum is a `uint32_t` sum. -/
def iram_check_fails (env : Env) (load_header : image_load_header) : Bool :=
  !env.esp_ptr_in_iram load_header.iram_dest_addr
    || !env.esp_ptr_in_iram ((load_header.iram_dest_addr + load_header.iram_size) % UINT32_MOD)

/-- Condition of the `if` of line 82; the sum is arithmetic on a 32-bit pointer. -/
def dram_check_fails (env : Env) (load_header : image_load_header) : Bool :=
  !env.esp_ptr_in_dram load_header.dram_dest_addr
    || !env.esp_ptr_in_dram ((load_header.dram_dest_addr + load_header.dram_size) % UINT32_MOD)

/-- Condition of the `if` of line 87. -/
def entry_check_fails (env : Env) (load_header : image_load_header) : Bool :=
  !env.esp_ptr_in_iram load_header.entry_addr

/-- Lines 72-102 of `esp_app_image_load`: the four checks, each ending in
`FIH_PANIC`, then the load. -/
def validate_and_load (env : Env) (s : State) (fa_off : Nat) (load_header : image_load_header) :
    State :=
  if magic_check_fails load_header then
    FIH_PANIC (s.emit (Event.log_err LogMsg.header_magic))
  else if iram_check_fails env load_header then
    FIH_PANIC (s.emit (Event.log_err LogMsg.iram_region))
  else if dram_check_fails env load_header then
    FIH_PANIC (s.emit (Event.log_err LogMsg.dram_region))
  else if entry_check_fails env load_header then
    FIH_PANIC (s.emit (Event.log_err (LogMsg.entry_point load_header.entry_addr)))
  else
    load_and_start env s fa_off load_header

/-- The function `esp_app_image_load` (lines 54-103). -/
def esp_app_image_load (env : Env) (mem : Nat → Nat) (slot : Int) (hdr_offset : Nat) : State :=
  let r := read_load_header env mem slot hdr_offset
  validate_and_load env r.state r.fa_off r.load_header

/-! ## Observations on traces -/

/-- Entry into `load_segment`. -/
def Event.is_load_segment : Event → Bool
  | Event.load_segment _ _ _ => true
  | _ => false

/-- A copy into destination memory (line 49). -/
def Event.is_memcpy_segment : Event → Bool
  | Event.memcpy_segment _ _ _ => true
  | _ => false

/-- The transmit-drain wait. -/
def Event.is_uart_tx_wait_idle : Event → Bool
  | Event.uart_tx_wait_idle _ => true
  | _ => false

/-- The call through the entry address. -/
def Event.is_call_entry : Event → Bool
  | Event.call_entry _ => true
  | _ => false

/-- A call of `bootloader_mmap`. -/
def Event.is_mmap : Event → Bool
  | Event.bootloader_mmap _ _ _ => true
  | _ => false

/-- A call of `bootloader_mmap` that returned a view. -/
def Event.is_acquire : Event → Bool
  | Event.bootloader_mmap _ _ (some _) => true
  | _ => false

/-- A call of `bootloader_munmap`. -/
def Event.is_munmap : Event → Bool
  | Event.bootloader_munmap _ => true
  | _ => false

/-- The header that `esp_app_image_load` validates. -/
def header_of (env : Env) (mem : Nat → Nat) (slot : Int) (hdr_offset : Nat) : image_load_header :=
  (read_load_header env mem slot hdr_offset).load_header

/-! ## Memory classes as intervals, and concrete platforms -/

/-- Membership of an address in the interval `[low, high)`. -/
def in_interval (low high : Nat) (p : Nat) : Bool := decide (low ≤ p) && decide (p < high)

/-- Byte `a` of a flash that holds the given 32-bit words, little-endian, from
address `base` on, and zero elsewhere. -/
def flash_words (base : Nat) (words : List Nat) (a : Nat) : Nat :=
  if a < base then 0 else (words.getD ((a - base) / 4) 0 / 256 ^ ((a - base) % 4)) % 256

/-- The eight words of a header in declaration order. -/
def header_words (h : image_load_header) : List Nat :=
  [h.header_magic, h.entry_addr, h.iram_dest_addr, h.iram_flash_offset, h.iram_size,
   h.dram_dest_addr, h.dram_flash_offset, h.dram_size]

/-- A platform with the ESP32 layout (IRAM `[0x40080000, 0x400A0000)`, DRAM
`[0x3FFAE000, 0x40000000)`), one slot at flash offset `0x10000` whose image
starts with the given header followed by the given payload words. -/
def esp32_env (h : image_load_header) (payload : List Nat) (mmap_ok : Nat → Bool)
    (null_read : Nat → Nat) : Env where
  flash_area_id_from_image_slot := fun slot => slot + 1
  flash_area_open := fun _ => (0, 0x10000)
  flash := flash_words 0x10000 (header_words h ++ payload)
  mmap_ok := fun n _ _ => mmap_ok n
  null_read := null_read
  esp_ptr_in_iram := in_interval 0x40080000 0x400A0000
  esp_ptr_in_dram := in_interval 0x3FFAE000 0x40000000
  entry_returns := fun _ => false

/-- A well-formed header: 8 bytes of data at flash offset `0x20`, 4 bytes of
code at flash offset `0x28`. -/
def good_header : image_load_header where
  header_magic := 0xace637d3
  entry_addr := 0x40080000
  iram_dest_addr := 0x40080000
  iram_flash_offset := 0x28
  iram_size := 4
  dram_dest_addr := 0x3FFB0000
  dram_flash_offset := 0x20
  dram_size := 8

/-! ## The validator as the specification words it -/

/-- The validation errors of the specification, in the order of its checks. -/
inductive ValidationError where
  | HeaderMagicMismatch
  | InstrRegionInvalid
  | DataRegionInvalid
  | EntryPointInvalid
deriving DecidableEq, Repr

/-- Whether the check that raises the given error fails on a header. -/
def ValidationError.fails (env : Env) (h : image_load_header) : ValidationError → Bool
  | ValidationError.HeaderMagicMismatch => magic_check_fails h
  | ValidationError.InstrRegionInvalid => iram_check_fails env h
  | ValidationError.DataRegionInvalid => dram_check_fails env h
  | ValidationError.EntryPointInvalid => entry_check_fails env h

/-- The diagnostic that names each failing check. -/
def ValidationError.diagnostic (h : image_load_header) : ValidationError → LogMsg
  | ValidationError.HeaderMagicMismatch => LogMsg.header_magic
  | ValidationError.InstrRegionInvalid => LogMsg.iram_region
  | ValidationError.DataRegionInvalid => LogMsg.dram_region
  | ValidationError.EntryPointInvalid => LogMsg.entry_point h.entry_addr

/-- The verdict of the specification's Validator: the first check, in the order
magic, instruction range, data range, entry point, that fails. -/
def first_failure (env : Env) (h : image_load_header) : Option ValidationError :=
  [ValidationError.HeaderMagicMismatch, ValidationError.InstrRegionInvalid,
   ValidationError.DataRegionInvalid, ValidationError.EntryPointInvalid].find?
    (fun c => c.fails env h)

/-- The trace of a run that stops in the fatal halt with the given diagnostic
right after the header read. -/
def halted_trace (env : Env) (mem : Nat → Nat) (slot : Int) (hdr_offset : Nat) (m : LogMsg) :
    List Event :=
  (read_load_header env mem slot hdr_offset).state.trace ++ [Event.log_err m, Event.fih_panic]

/-- Example payload of an image: two data words and one code word. -/
def example_payload : List Nat := [0x11223344, 0x55667788, 0xdeadbeef]

/-- Destination memory holding zero everywhere. -/
def zero_mem : Nat → Nat := fun _ => 0

/-- The well-formed header with its magic off by one bit. -/
def bad_magic_header : image_load_header := { good_header with header_magic := 0xace637d2 }

/-- The ESP32 platform with an image that carries `bad_magic_header`. -/
def bad_magic_env : Env :=
  esp32_env bad_magic_header example_payload (fun _ => true) (fun _ => 0)

/-- A header whose IRAM range starts inside IRAM and whose 32-bit end address
`0x40080010 + 0xFFFFFFF8` wraps to `0x40080008`. -/
def wrapping_iram_header : image_load_header :=
  { good_header with iram_dest_addr := 0x40080010, iram_size := 0xFFFFFFF8 }

/-- The ESP32 platform with an image that carries `wrapping_iram_header`. -/
def wrapping_iram_env : Env :=
  esp32_env wrapping_iram_header example_payload (fun _ => true) (fun _ => 0)

/-- A header whose DRAM range starts inside DRAM and whose 32-bit end address
`0x3FFB0010 + 0xFFFFFFF8` wraps to `0x3FFB0008`. -/
def wrapping_dram_header : image_load_header :=
  { good_header with dram_dest_addr := 0x3FFB0010, dram_size := 0xFFFFFFF8 }

/-- The ESP32 platform with an image that carries `wrapping_dram_header`. -/
def wrapping_dram_env : Env :=
  esp32_env wrapping_dram_header example_payload (fun _ => true) (fun _ => 0)

/-- A header whose IRAM range `[0x4009FF00, 0x400A0001)` reaches one byte past
the upper bound `0x400A0000` of the ESP32 IRAM. -/
def one_past_iram_header : image_load_header :=
  { good_header with iram_dest_addr := 0x4009FF00, iram_size := 0x101 }

/-- The ESP32 platform with an image that carries `one_past_iram_header`. -/
def one_past_iram_env : Env :=
  esp32_env one_past_iram_header example_payload (fun _ => true) (fun _ => 0)

/-- A header whose IRAM range `[0x4009FF00, 0x400A0000)` ends exactly at the
upper bound of the ESP32 IRAM. -/
def top_of_iram_header : image_load_header :=
  { good_header with iram_dest_addr := 0x4009FF00, iram_size := 0x100 }

/-- The ESP32 platform with an image that carries `top_of_iram_header`. -/
def top_of_iram_env : Env :=
  esp32_env top_of_iram_header example_payload (fun _ => true) (fun _ => 0)

/-- A header with an empty DRAM range that starts at address 0, outside DRAM. -/
def empty_dram_at_zero_header : image_load_header :=
  { good_header with dram_dest_addr := 0, dram_size := 0 }

/-- The ESP32 platform with an image that carries `empty_dram_at_zero_header`. -/
def empty_dram_at_zero_env : Env :=
  esp32_env empty_dram_at_zero_header example_payload (fun _ => true) (fun _ => 0)

/-- The ESP32 platform with an image that carries `good_header`. -/
def good_env : Env :=
  esp32_env good_header example_payload (fun _ => true) (fun _ => 0)

/-- The well-formed header with an empty data segment. -/
def empty_dram_header : image_load_header := { good_header with dram_size := 0 }

/-- The ESP32 platform with an image that carries `empty_dram_header`. -/
def empty_dram_env : Env :=
  esp32_env empty_dram_header example_payload (fun _ => true) (fun _ => 0)

/-- The actions of one successful `load_segment` call on the view at flash
address `src`. -/
def segment_actions (data_addr data_len load_addr src : Nat) : List Event :=
  [Event.load_segment data_addr data_len load_addr,
   Event.bootloader_mmap src data_len (some src),
   Event.memcpy_segment load_addr (some src) data_len,
   Event.bootloader_munmap (some src)]

/-- The ESP32 platform with the well-formed image, on which the second call of
`bootloader_mmap` (the data segment) returns `NULL`. -/
def dram_unmapped_env : Env :=
  esp32_env good_header example_payload (fun n => n != 1) (fun _ => 0)

/-- The ESP32 platform with the well-formed image, on which the third call of
`bootloader_mmap` (the instruction segment) returns `NULL`. -/
def iram_unmapped_env : Env :=
  esp32_env good_header example_payload (fun n => n != 2) (fun _ => 0)

/-- The ESP32 platform with the well-formed image, on which the first call of
`bootloader_mmap` (the header) returns `NULL` and reads through `NULL` yield
zero bytes. -/
def header_unmapped_env : Env :=
  esp32_env good_header example_payload (fun n => n != 0) (fun _ => 0)

/-- The ESP32 platform with an image whose header has a wrong magic, on which
the first call of `bootloader_mmap` returns `NULL` and the bytes read through
`NULL` happen to spell the well-formed header. -/
def header_unmapped_lucky_env : Env :=
  esp32_env bad_magic_header example_payload (fun n => n != 0)
    (flash_words 0 (header_words good_header))

/-- One action seen by the view discipline, given the view currently held:
the view held afterwards, or `none` when the action breaks the discipline.  A
view may be acquired only while none is held, `bootloader_munmap` must be given
the view held at that moment, and no view may be held at a fatal halt or at
the call through the entry address. -/
def view_step (held : ViewPtr) (e : Event) : Option ViewPtr :=
  match e with
  | Event.bootloader_mmap _ _ (some a) => if held.isNone then some (some a) else none
  | Event.bootloader_munmap data => if data.isSome && data == held then some none else none
  | Event.fih_panic => if held.isNone then some held else none
  | Event.call_entry _ => if held.isNone then some held else none
  | _ => some held

/-- The discipline of mapped views along a trace, given the view held at its
start: every action respects `view_step` and no view is held at the end. -/
def views_paired : ViewPtr → List Event → Bool
  | held, [] => held.isNone
  | held, e :: t =>
    match view_step held e with
    | none => false
    | some held' => views_paired held' t

/-- A header with a wrong magic and an IRAM range outside IRAM. -/
def bad_magic_bad_iram_header : image_load_header :=
  { good_header with header_magic := 0, iram_dest_addr := 0x1000 }

/-- The ESP32 platform with an image that carries `bad_magic_bad_iram_header`. -/
def bad_magic_bad_iram_env : Env :=
  esp32_env bad_magic_bad_iram_header example_payload (fun _ => true) (fun _ => 0)

/-- A header with the right magic, an IRAM range outside IRAM and an entry
address outside IRAM. -/
def bad_iram_bad_entry_header : image_load_header :=
  { good_header with iram_dest_addr := 0x1000, entry_addr := 0x2000 }

/-- The ESP32 platform with an image that carries `bad_iram_bad_entry_header`. -/
def bad_iram_bad_entry_env : Env :=
  esp32_env bad_iram_bad_entry_header example_payload (fun _ => true) (fun _ => 0)

/-- The fatal halt. -/
def Event.is_fih_panic : Event → Bool
  | Event.fih_panic => true
  | _ => false

/-- The actions of one `load_segment` call made when `calls` calls of
`bootloader_mmap` have gone before: those of a successful call when the
mapping succeeds, and otherwise the call, the failed mapping and the error
log. -/
def load_segment_actions (env : Env) (calls fa_off data_addr data_len load_addr : Nat) :
    List Event :=
  if env.mmap_ok calls ((fa_off + data_addr) % UINT32_MOD) data_len then
    segment_actions data_addr data_len load_addr ((fa_off + data_addr) % UINT32_MOD)
  else
    [Event.load_segment data_addr data_len load_addr,
     Event.bootloader_mmap ((fa_off + data_addr) % UINT32_MOD) data_len none,
     Event.log_err LogMsg.mmap_failed]

/-- The actions of lines 92-99, up to the transmit-drain wait, when `calls`
calls of `bootloader_mmap` have gone before. -/
def load_actions (env : Env) (calls fa_off : Nat) (h : image_load_header) : List Event :=
  (Event.log_inf (LogMsg.dram_segment h.dram_flash_offset h.dram_size h.dram_dest_addr) ::
      load_segment_actions env calls fa_off h.dram_flash_offset h.dram_size h.dram_dest_addr) ++
    (Event.log_inf (LogMsg.iram_segment h.iram_flash_offset h.iram_size h.iram_dest_addr) ::
      load_segment_actions env (calls + 1) fa_off h.iram_flash_offset h.iram_size
        h.iram_dest_addr) ++
    [Event.log_inf (LogMsg.start h.entry_addr), Event.uart_tx_wait_idle 0]

/-- The ESP32 platform with the well-formed image, on which the call through
the entry address returns. -/
def returning_entry_env : Env := { good_env with entry_returns := fun _ => true }

/-- The ESP32 platform with the well-formed image, on which `flash_area_open`
fails with code `-1` and the handle yields the offset `0x20000`. -/
def unresolved_slot_env : Env := { good_env with flash_area_open := fun _ => (-1, 0x20000) }

/-- Destination memory holding `0xAA` everywhere. -/
def pattern_mem : Nat → Nat := fun _ => 0xAA

/-- A header with an empty IRAM range that starts at address 0, outside IRAM. -/
def empty_iram_at_zero_header : image_load_header :=
  { good_header with iram_dest_addr := 0, iram_size := 0 }

/-- The ESP32 platform with an image that carries `empty_iram_at_zero_header`. -/
def empty_iram_at_zero_env : Env :=
  esp32_env empty_iram_at_zero_header example_payload (fun _ => true) (fun _ => 0)

/-! ## Basic facts about the header read -/

/-- Lines 62-70 leave destination memory untouched. -/
theorem read_load_header_mem (env : Env) (mem : Nat → Nat) (slot : Int) (hdr_offset : Nat) :
    (read_load_header env mem slot hdr_offset).state.mem = mem := by
  unfold read_load_header
  simp only [bootloader_munmap, State.emit, bootloader_mmap, State.init]
  split <;> rfl

/-- The actions of lines 62-70, spelled out. -/
theorem read_load_header_trace (env : Env) (mem : Nat → Nat) (slot : Int) (hdr_offset : Nat) :
    (read_load_header env mem slot hdr_offset).state.trace =
      let area_id := env.flash_area_id_from_image_slot slot
      let rc := (env.flash_area_open area_id).1
      let src := ((env.flash_area_open area_id).2 + hdr_offset) % UINT32_MOD
      let data : ViewPtr := if env.mmap_ok 0 src SIZEOF_LOAD_HEADER then some src else none
      Event.flash_area_open area_id rc ::
        ((if rc != 0 then [Event.log_err (LogMsg.flash_area_open_failed rc)] else []) ++
          [Event.bootloader_mmap src SIZEOF_LOAD_HEADER data, Event.memcpy_header data,
           Event.bootloader_munmap data]) := by
  unfold read_load_header
  simp only [bootloader_munmap, State.emit, bootloader_mmap, State.init]
  split <;> simp

/-- The header read makes exactly one call of `bootloader_mmap`. -/
theorem read_load_header_mmap_calls (env : Env) (mem : Nat → Nat) (slot : Int)
    (hdr_offset : Nat) : (read_load_header env mem slot hdr_offset).state.mmap_calls = 1 := by
  unfold read_load_header
  simp only [bootloader_munmap, State.emit, bootloader_mmap, State.init]
  split <;> rfl

/-! ## The validator -/

/-- Some check fails exactly when the first-failure verdict is an error. -/
theorem first_failure_isSome (env : Env) (h : image_load_header) :
    (first_failure env h).isSome = true ↔
      (magic_check_fails h = true ∨ iram_check_fails env h = true ∨
        dram_check_fails env h = true ∨ entry_check_fails env h = true) := by
  unfold first_failure
  simp only [List.find?, ValidationError.fails]
  cases magic_check_fails h <;> cases iram_check_fails env h <;>
    cases dram_check_fails env h <;> cases entry_check_fails env h <;> simp

/-- On a verdict `some c` the code logs the diagnostic of `c` and halts. -/
theorem validate_and_load_of_failure (env : Env) (s : State) (fa_off : Nat)
    (h : image_load_header) (c : ValidationError) (hc : first_failure env h = some c) :
    validate_and_load env s fa_off h = FIH_PANIC (s.emit (Event.log_err (c.diagnostic h))) := by
  unfold first_failure at hc
  unfold validate_and_load
  simp only [List.find?, ValidationError.fails] at hc
  cases h1 : magic_check_fails h <;> cases h2 : iram_check_fails env h <;>
    cases h3 : dram_check_fails env h <;> cases h4 : entry_check_fails env h <;>
    simp [h1, h2, h3, h4] at hc <;> subst hc <;> simp [ValidationError.diagnostic]

/-- On the verdict `none` the code goes on to the segment loads. -/
theorem validate_and_load_of_pass (env : Env) (s : State) (fa_off : Nat)
    (h : image_load_header) (hc : first_failure env h = none) :
    validate_and_load env s fa_off h = load_and_start env s fa_off h := by
  unfold first_failure at hc
  unfold validate_and_load
  simp only [List.find?, ValidationError.fails] at hc
  cases h1 : magic_check_fails h <;> cases h2 : iram_check_fails env h <;>
    cases h3 : dram_check_fails env h <;> cases h4 : entry_check_fails env h <;>
    simp [h1, h2, h3, h4] at hc
  simp [h1, h2, h3, h4]

/-- A run whose header gets the verdict `some c` has the halted trace of `c`
and leaves memory as it was. -/
theorem run_of_failure (env : Env) (mem : Nat → Nat) (slot : Int) (hdr_offset : Nat)
    (c : ValidationError) (hc : first_failure env (header_of env mem slot hdr_offset) = some c) :
    (esp_app_image_load env mem slot hdr_offset).trace =
        halted_trace env mem slot hdr_offset
          (c.diagnostic (header_of env mem slot hdr_offset)) ∧
      (esp_app_image_load env mem slot hdr_offset).mem = mem := by
  unfold header_of at hc
  unfold esp_app_image_load
  simp only []
  rw [validate_and_load_of_failure env _ _ _ c hc]
  refine ⟨by simp [FIH_PANIC, State.emit, halted_trace, header_of], ?_⟩
  simp [FIH_PANIC, State.emit, read_load_header_mem]

/-- A halted trace ends in the fatal halt and holds no segment load, no copy,
no transmit-drain wait and no call through the entry address. -/
theorem halted_trace_facts (env : Env) (mem : Nat → Nat) (slot : Int) (hdr_offset : Nat)
    (m : LogMsg) :
    (halted_trace env mem slot hdr_offset m).getLast? = some Event.fih_panic ∧
      (halted_trace env mem slot hdr_offset m).countP Event.is_load_segment = 0 ∧
      (halted_trace env mem slot hdr_offset m).countP Event.is_memcpy_segment = 0 ∧
      (halted_trace env mem slot hdr_offset m).countP Event.is_uart_tx_wait_idle = 0 ∧
      (halted_trace env mem slot hdr_offset m).countP Event.is_call_entry = 0 := by
  have hlast : (halted_trace env mem slot hdr_offset m).getLast? = some Event.fih_panic := by
    have hsplit : halted_trace env mem slot hdr_offset m =
        ((read_load_header env mem slot hdr_offset).state.trace ++ [Event.log_err m]) ++
          [Event.fih_panic] := by simp [halted_trace]
    rw [hsplit, List.getLast?_concat]
  refine ⟨hlast, ?_⟩
  unfold halted_trace
  rw [read_load_header_trace]
  simp only []
  refine ⟨?_, ?_, ?_, ?_⟩ <;>
    (split <;> simp [List.countP_cons, Event.is_load_segment, Event.is_memcpy_segment,
      Event.is_uart_tx_wait_idle, Event.is_call_entry])

/-! ## Range checks on interval classes -/

/-- With a class that is the interval `[low, high)`, a range `[d, d + n)` whose
32-bit end does not overflow and which holds an address outside the class
fails the two-end-point test of lines 77 and 82. -/
theorem end_points_detect_escape (in_class : Nat → Bool) (low high d n a : Nat)
    (hC : ∀ p, in_class p = in_interval low high p) (hno : d + n ≤ 0xFFFFFFFF)
    (h1 : d ≤ a) (h2 : a < d + n) (h3 : in_class a = false) :
    (!in_class d || !in_class ((d + n) % UINT32_MOD)) = true := by
  have hmod : (d + n) % UINT32_MOD = d + n := Nat.mod_eq_of_lt (by unfold UINT32_MOD; omega)
  rw [hmod]
  rw [hC] at h3
  rw [hC d, hC (d + n)]
  simp only [in_interval, Bool.and_eq_false_iff, decide_eq_false_iff_not, not_le, not_lt] at h3
  simp only [in_interval, Bool.or_eq_true, Bool.not_eq_true', Bool.and_eq_false_iff,
    decide_eq_false_iff_not, not_le, not_lt]
  omega

/-- With a class that is an interval `[low, high)` of 32-bit addresses, a range
whose two end points `d` and `d + n` are in the class passes the test of lines
77 and 82. -/
theorem end_points_in_class_pass (in_class : Nat → Bool) (low high d n : Nat)
    (hC : ∀ p, in_class p = in_interval low high p) (hhigh : high ≤ 2 ^ 32)
    (hd : in_class d = true) (he : in_class (d + n) = true) :
    (!in_class d || !in_class ((d + n) % UINT32_MOD)) = false := by
  rw [hC] at he
  simp only [in_interval, Bool.and_eq_true, decide_eq_true_eq] at he
  have hmod : (d + n) % UINT32_MOD = d + n := Nat.mod_eq_of_lt (by unfold UINT32_MOD; omega)
  rw [hmod, hd, hC (d + n)]
  simp [in_interval, he.1, he.2]

/-- The verdict when the magic is right and the IRAM check fails. -/
theorem first_failure_iram (env : Env) (h : image_load_header)
    (hmagic : magic_check_fails h = false) (hiram : iram_check_fails env h = true) :
    first_failure env h = some ValidationError.InstrRegionInvalid := by
  simp [first_failure, List.find?, ValidationError.fails, hmagic, hiram]

/-- The verdict when all four checks pass. -/
theorem first_failure_none (env : Env) (h : image_load_header)
    (h1 : magic_check_fails h = false) (h2 : iram_check_fails env h = false)
    (h3 : dram_check_fails env h = false) (h4 : entry_check_fails env h = false) :
    first_failure env h = none := by
  simp [first_failure, List.find?, ValidationError.fails, h1, h2, h3, h4]

/-- A run whose header gets the verdict `none` is the header read followed by
lines 92-102. -/
theorem run_of_pass (env : Env) (mem : Nat → Nat) (slot : Int) (hdr_offset : Nat)
    (hc : first_failure env (header_of env mem slot hdr_offset) = none) :
    esp_app_image_load env mem slot hdr_offset =
      load_and_start env (read_load_header env mem slot hdr_offset).state
        (read_load_header env mem slot hdr_offset).fa_off
        (header_of env mem slot hdr_offset) := by
  unfold header_of at hc
  unfold esp_app_image_load header_of
  simp only []
  rw [validate_and_load_of_pass env _ _ _ hc]

/-- With a class that is the interval `[low, high)`, a range that passes the
two-end-point test and whose 32-bit end does not overflow lies in
`[low, high)`. -/
theorem end_points_bound_range (in_class : Nat → Bool) (low high d n : Nat)
    (hC : ∀ p, in_class p = in_interval low high p) (hno : d + n ≤ 0xFFFFFFFF)
    (hpass : (!in_class d || !in_class ((d + n) % UINT32_MOD)) = false) :
    low ≤ d ∧ d + n < high := by
  have hmod : (d + n) % UINT32_MOD = d + n := Nat.mod_eq_of_lt (by unfold UINT32_MOD; omega)
  rw [hmod, hC d, hC (d + n)] at hpass
  simp only [in_interval, Bool.or_eq_false_iff, Bool.not_eq_false', Bool.and_eq_true,
    decide_eq_true_eq] at hpass
  omega

/-- With IRAM and DRAM disjoint intervals, the two destination ranges of an
accepted header share no address, provided neither 32-bit end overflows. -/
theorem accepted_ranges_disjoint_without_overflow (env : Env) (h : image_load_header)
    (iram_low iram_high dram_low dram_high : Nat)
    (hI : ∀ p, env.esp_ptr_in_iram p = in_interval iram_low iram_high p)
    (hD : ∀ p, env.esp_ptr_in_dram p = in_interval dram_low dram_high p)
    (hdisj : iram_high ≤ dram_low ∨ dram_high ≤ iram_low)
    (hnoI : h.iram_dest_addr + h.iram_size ≤ 0xFFFFFFFF)
    (hnoD : h.dram_dest_addr + h.dram_size ≤ 0xFFFFFFFF)
    (h2 : iram_check_fails env h = false) (h3 : dram_check_fails env h = false) (a : Nat) :
    ¬ ((h.iram_dest_addr ≤ a ∧ a < h.iram_dest_addr + h.iram_size) ∧
      (h.dram_dest_addr ≤ a ∧ a < h.dram_dest_addr + h.dram_size)) := by
  have hi := end_points_bound_range _ iram_low iram_high _ _ hI hnoI h2
  have hd := end_points_bound_range _ dram_low dram_high _ _ hD hnoD h3
  omega

/-! ## The byte copy -/

/-- One more byte: `memcpy` of `n + 1` bytes is `memcpy` of `n` bytes followed
by the store of byte `n`. -/
theorem memcpy_succ (mem : Nat → Nat) (dst : Nat) (src : Nat → Nat) (n : Nat) :
    memcpy mem dst src (n + 1) = Function.update (memcpy mem dst src n) (dst + n) (src n) := by
  unfold memcpy
  rw [List.range_succ, List.foldl_append]
  rfl

/-- After `memcpy`, an address inside `[dst, dst + n)` holds the source byte of
the same offset, and every other address holds what it held before. -/
theorem memcpy_apply (mem : Nat → Nat) (dst : Nat) (src : Nat → Nat) (n a : Nat) :
    memcpy mem dst src n a = if dst ≤ a ∧ a < dst + n then src (a - dst) else mem a := by
  induction n with
  | zero =>
    have hfalse : ¬ (dst ≤ a ∧ a < dst + 0) := by omega
    rw [if_neg hfalse]
    rfl
  | succ k ih =>
    rw [memcpy_succ]
    by_cases hlast : a = dst + k
    · subst hlast
      have hin : dst ≤ dst + k ∧ dst + k < dst + (k + 1) := by omega
      simp [hin]
    · rw [Function.update_noteq hlast, ih]
      by_cases hk : dst ≤ a ∧ a < dst + k
      · have hk1 : dst ≤ a ∧ a < dst + (k + 1) := by omega
        simp [hk, hk1]
      · have hk1 : ¬ (dst ≤ a ∧ a < dst + (k + 1)) := by omega
        simp [hk, hk1]

/-! ## The segment loader -/

/-- A `load_segment` call whose mapping succeeds: result, memory and actions. -/
theorem load_segment_of_mapped (env : Env) (s : State) (fa_off data_addr data_len load_addr : Nat)
    (hok : env.mmap_ok s.mmap_calls ((fa_off + data_addr) % UINT32_MOD) data_len = true) :
    load_segment env s fa_off data_addr data_len load_addr =
      (0, ⟨memcpy s.mem load_addr
            (view_byte env (some ((fa_off + data_addr) % UINT32_MOD))) data_len,
          s.trace ++ segment_actions data_addr data_len load_addr
            ((fa_off + data_addr) % UINT32_MOD),
          s.mmap_calls + 1⟩) := by
  simp [load_segment, bootloader_mmap, bootloader_munmap, State.emit, hok, segment_actions]

/-- A `load_segment` call whose mapping fails: result, memory and actions. -/
theorem load_segment_of_unmapped (env : Env) (s : State)
    (fa_off data_addr data_len load_addr : Nat)
    (hok : env.mmap_ok s.mmap_calls ((fa_off + data_addr) % UINT32_MOD) data_len = false) :
    load_segment env s fa_off data_addr data_len load_addr =
      (-1, ⟨s.mem,
          s.trace ++ [Event.load_segment data_addr data_len load_addr,
            Event.bootloader_mmap ((fa_off + data_addr) % UINT32_MOD) data_len none,
            Event.log_err LogMsg.mmap_failed],
          s.mmap_calls + 1⟩) := by
  simp [load_segment, bootloader_mmap, State.emit, hok]

/-- Lines 92-102 when both mappings succeed: memory and actions. -/
theorem load_and_start_of_mapped (env : Env) (s : State) (fa_off : Nat) (h : image_load_header)
    (hmap : ∀ n a l, env.mmap_ok n a l = true) :
    (load_and_start env s fa_off h).mem =
        memcpy (memcpy s.mem h.dram_dest_addr
            (view_byte env (some ((fa_off + h.dram_flash_offset) % UINT32_MOD))) h.dram_size)
          h.iram_dest_addr
          (view_byte env (some ((fa_off + h.iram_flash_offset) % UINT32_MOD))) h.iram_size ∧
      (load_and_start env s fa_off h).trace =
        s.trace ++
          (Event.log_inf (LogMsg.dram_segment h.dram_flash_offset h.dram_size h.dram_dest_addr) ::
            segment_actions h.dram_flash_offset h.dram_size h.dram_dest_addr
              ((fa_off + h.dram_flash_offset) % UINT32_MOD)) ++
          (Event.log_inf (LogMsg.iram_segment h.iram_flash_offset h.iram_size h.iram_dest_addr) ::
            segment_actions h.iram_flash_offset h.iram_size h.iram_dest_addr
              ((fa_off + h.iram_flash_offset) % UINT32_MOD)) ++
          [Event.log_inf (LogMsg.start h.entry_addr), Event.uart_tx_wait_idle 0,
            Event.call_entry h.entry_addr] ++
          (if env.entry_returns h.entry_addr then [Event.fih_panic] else []) := by
  unfold load_and_start
  simp only []
  rw [load_segment_of_mapped env _ _ _ _ _ (hmap _ _ _)]
  simp only []
  rw [load_segment_of_mapped env _ _ _ _ _ (hmap _ _ _)]
  cases hret : env.entry_returns h.entry_addr <;> simp [FIH_PANIC, State.emit]

/-- The actions and the call count of one `load_segment` call, whether the
mapping succeeds or not. -/
theorem load_segment_trace (env : Env) (s : State) (fa_off data_addr data_len load_addr : Nat) :
    (load_segment env s fa_off data_addr data_len load_addr).2.trace =
        s.trace ++ load_segment_actions env s.mmap_calls fa_off data_addr data_len load_addr ∧
      (load_segment env s fa_off data_addr data_len load_addr).2.mmap_calls =
        s.mmap_calls + 1 := by
  cases hok : env.mmap_ok s.mmap_calls ((fa_off + data_addr) % UINT32_MOD) data_len
  · rw [load_segment_of_unmapped env s fa_off data_addr data_len load_addr hok]
    simp [load_segment_actions, hok]
  · rw [load_segment_of_mapped env s fa_off data_addr data_len load_addr hok]
    simp [load_segment_actions, hok]

/-- The actions of lines 92-102, whether the mappings succeed or not. -/
theorem load_and_start_trace (env : Env) (s : State) (fa_off : Nat) (h : image_load_header) :
    (load_and_start env s fa_off h).trace =
      s.trace ++ load_actions env s.mmap_calls fa_off h ++
        Event.call_entry h.entry_addr ::
          (if env.entry_returns h.entry_addr then [Event.fih_panic] else []) := by
  unfold load_and_start
  simp only []
  cases hret : env.entry_returns h.entry_addr <;>
    simp [FIH_PANIC, State.emit, load_actions, load_segment_trace]

/-- Neither the entry call nor the fatal halt occurs among the actions of one
`load_segment` call. -/
theorem load_segment_actions_quiet (env : Env) (calls fa_off data_addr data_len load_addr : Nat) :
    (load_segment_actions env calls fa_off data_addr data_len load_addr).countP
        Event.is_call_entry = 0 ∧
      (load_segment_actions env calls fa_off data_addr data_len load_addr).countP
        Event.is_fih_panic = 0 := by
  unfold load_segment_actions
  split <;> simp [segment_actions, List.countP_cons, Event.is_call_entry, Event.is_fih_panic]

/-- Neither the entry call nor the fatal halt occurs in the header read. -/
theorem read_load_header_quiet (env : Env) (mem : Nat → Nat) (slot : Int) (hdr_offset : Nat) :
    (read_load_header env mem slot hdr_offset).state.trace.countP Event.is_call_entry = 0 ∧
      (read_load_header env mem slot hdr_offset).state.trace.countP Event.is_fih_panic = 0 := by
  rw [read_load_header_trace]
  simp only []
  constructor <;>
    (split <;> simp [List.countP_cons, Event.is_call_entry, Event.is_fih_panic])

/-! ## Width of the header fields -/

/-- A byte seen through a view is below 256. -/
theorem view_byte_lt (env : Env) (data : ViewPtr) (i : Nat) : view_byte env data i < 256 := by
  unfold view_byte
  cases data with
  | none => exact Nat.mod_lt _ (by decide)
  | some a => exact Nat.mod_lt _ (by decide)

/-- Four bytes make a value below `2 ^ 32`. -/
theorem read_u32_lt (src : Nat → Nat) (off : Nat) (hsrc : ∀ i, src i < 256) :
    read_u32 src off < UINT32_MOD := by
  have h0 := hsrc off
  have h1 := hsrc (off + 1)
  have h2 := hsrc (off + 2)
  have h3 := hsrc (off + 3)
  unfold read_u32 UINT32_MOD
  omega

/-- The destination addresses of the header that the code reads are 32-bit
values. -/
theorem header_of_dest_lt (env : Env) (mem : Nat → Nat) (slot : Int) (hdr_offset : Nat) :
    (header_of env mem slot hdr_offset).iram_dest_addr < UINT32_MOD ∧
      (header_of env mem slot hdr_offset).dram_dest_addr < UINT32_MOD := by
  unfold header_of read_load_header
  simp only [decode_header]
  exact ⟨read_u32_lt _ _ (view_byte_lt env _), read_u32_lt _ _ (view_byte_lt env _)⟩

/-- The verdict is `none` exactly when the magic is the sentinel, the two end
points of each range are in the class of the range and the entry is in IRAM. -/
theorem first_failure_eq_none_iff (env : Env) (h : image_load_header) :
    first_failure env h = none ↔
      (h.header_magic = ESP_LOAD_HEADER_MAGIC ∧
        env.esp_ptr_in_iram h.iram_dest_addr = true ∧
        env.esp_ptr_in_iram ((h.iram_dest_addr + h.iram_size) % UINT32_MOD) = true ∧
        env.esp_ptr_in_dram h.dram_dest_addr = true ∧
        env.esp_ptr_in_dram ((h.dram_dest_addr + h.dram_size) % UINT32_MOD) = true ∧
        env.esp_ptr_in_iram h.entry_addr = true) := by
  have hflags : first_failure env h = none ↔
      (magic_check_fails h = false ∧ iram_check_fails env h = false ∧
        dram_check_fails env h = false ∧ entry_check_fails env h = false) := by
    constructor
    · intro hn
      have hiff := first_failure_isSome env h
      rw [hn] at hiff
      cases h1 : magic_check_fails h <;> cases h2 : iram_check_fails env h <;>
        cases h3 : dram_check_fails env h <;> cases h4 : entry_check_fails env h <;>
        simp [h1, h2, h3, h4] at hiff ⊢
    · rintro ⟨h1, h2, h3, h4⟩
      exact first_failure_none env h h1 h2 h3 h4
  rw [hflags]
  simp [magic_check_fails, iram_check_fails, dram_check_fails, entry_check_fails, and_assoc]

/-- Every run starts with the actions of the header read. -/
theorem run_trace_starts_with_read (env : Env) (mem : Nat → Nat) (slot : Int)
    (hdr_offset : Nat) :
    ∃ rest, (esp_app_image_load env mem slot hdr_offset).trace =
      (read_load_header env mem slot hdr_offset).state.trace ++ rest := by
  cases hc : first_failure env (header_of env mem slot hdr_offset) with
  | some c =>
    exact ⟨_, (run_of_failure env mem slot hdr_offset c hc).1⟩
  | none =>
    rw [run_of_pass env mem slot hdr_offset hc, load_and_start_trace]
    exact ⟨_, List.append_assoc _ _ _⟩

/-- One `load_segment` call enters `load_segment` once. -/
theorem load_segment_actions_count (env : Env)
    (calls fa_off data_addr data_len load_addr : Nat) :
    (load_segment_actions env calls fa_off data_addr data_len load_addr).countP
      Event.is_load_segment = 1 := by
  unfold load_segment_actions
  split <;> simp [segment_actions, List.countP_cons, Event.is_load_segment]

/-- Lines 92-99 enter `load_segment` twice, whether the mappings succeed or
not. -/
theorem load_actions_count (env : Env) (calls fa_off : Nat) (h : image_load_header) :
    (load_actions env calls fa_off h).countP Event.is_load_segment = 2 := by
  simp [load_actions, List.countP_append, List.countP_cons, load_segment_actions_count,
    Event.is_load_segment]

/-! ## Claims -/

/-- C1: a header that fails any of the four checks of `esp_app_image_load`
(magic, IRAM range, DRAM range, entry point) takes the run to `FIH_PANIC` as
its last action, with no call of `load_segment`, no copy into destination
memory, no transmit-drain wait and no call through the entry address; the
destination memory is unchanged. -/
theorem failed_check_halts_before_any_copy (env : Env) (mem : Nat → Nat) (slot : Int)
    (hdr_offset : Nat)
    (hfail : magic_check_fails (header_of env mem slot hdr_offset) = true ∨
      iram_check_fails env (header_of env mem slot hdr_offset) = true ∨
      dram_check_fails env (header_of env mem slot hdr_offset) = true ∨
      entry_check_fails env (header_of env mem slot hdr_offset) = true) :
    (esp_app_image_load env mem slot hdr_offset).trace.getLast? = some Event.fih_panic ∧
      (esp_app_image_load env mem slot hdr_offset).trace.countP Event.is_load_segment = 0 ∧
      (esp_app_image_load env mem slot hdr_offset).trace.countP Event.is_memcpy_segment = 0 ∧
      (esp_app_image_load env mem slot hdr_offset).trace.countP Event.is_uart_tx_wait_idle = 0 ∧
      (esp_app_image_load env mem slot hdr_offset).trace.countP Event.is_call_entry = 0 ∧
      (esp_app_image_load env mem slot hdr_offset).mem = mem := by
  have hsome := (first_failure_isSome env (header_of env mem slot hdr_offset)).mpr hfail
  obtain ⟨c, hc⟩ := Option.isSome_iff_exists.mp hsome
  obtain ⟨htrace, hmem⟩ := run_of_failure env mem slot hdr_offset c hc
  obtain ⟨h1, h2, h3, h4, h5⟩ := halted_trace_facts env mem slot hdr_offset
    (c.diagnostic (header_of env mem slot hdr_offset))
  rw [htrace]
  exact ⟨h1, h2, h3, h4, h5, hmem⟩

/-- C1, witness: the ESP32 image whose header has the magic `0xace637d2`. -/
theorem failed_check_halts_before_any_copy_witness :
    magic_check_fails (header_of bad_magic_env zero_mem 0 0) = true ∧
      (esp_app_image_load bad_magic_env zero_mem 0 0).trace.getLast? = some Event.fih_panic ∧
      (esp_app_image_load bad_magic_env zero_mem 0 0).trace.countP Event.is_load_segment = 0 ∧
      (esp_app_image_load bad_magic_env zero_mem 0 0).trace.countP Event.is_memcpy_segment = 0 ∧
      (esp_app_image_load bad_magic_env zero_mem 0 0).trace.countP
        Event.is_uart_tx_wait_idle = 0 ∧
      (esp_app_image_load bad_magic_env zero_mem 0 0).trace.countP Event.is_call_entry = 0 ∧
      (esp_app_image_load bad_magic_env zero_mem 0 0).mem = zero_mem :=
  ⟨by decide, failed_check_halts_before_any_copy bad_magic_env zero_mem 0 0 (Or.inl (by decide))⟩

/-- C2, at the failing inputs: on the ESP32 layout the header with IRAM range
`0x40080010 + 0xFFFFFFF8` and the header with DRAM range
`0x3FFB0010 + 0xFFFFFFF8`, whose 32-bit end addresses overflow, pass all four
checks; both segments are loaded and the entry address is called. -/
theorem overflowing_range_is_accepted :
    (header_of wrapping_iram_env zero_mem 0 0 = wrapping_iram_header ∧
      0xFFFFFFFF < wrapping_iram_header.iram_dest_addr + wrapping_iram_header.iram_size ∧
      first_failure wrapping_iram_env wrapping_iram_header = none ∧
      (esp_app_image_load wrapping_iram_env zero_mem 0 0).trace =
        [Event.flash_area_open 1 0,
         Event.bootloader_mmap 0x10000 32 (some 0x10000),
         Event.memcpy_header (some 0x10000),
         Event.bootloader_munmap (some 0x10000),
         Event.log_inf (LogMsg.dram_segment 0x20 8 0x3FFB0000),
         Event.load_segment 0x20 8 0x3FFB0000,
         Event.bootloader_mmap 0x10020 8 (some 0x10020),
         Event.memcpy_segment 0x3FFB0000 (some 0x10020) 8,
         Event.bootloader_munmap (some 0x10020),
         Event.log_inf (LogMsg.iram_segment 0x28 0xFFFFFFF8 0x40080010),
         Event.load_segment 0x28 0xFFFFFFF8 0x40080010,
         Event.bootloader_mmap 0x10028 0xFFFFFFF8 (some 0x10028),
         Event.memcpy_segment 0x40080010 (some 0x10028) 0xFFFFFFF8,
         Event.bootloader_munmap (some 0x10028),
         Event.log_inf (LogMsg.start 0x40080000),
         Event.uart_tx_wait_idle 0,
         Event.call_entry 0x40080000]) ∧
    (header_of wrapping_dram_env zero_mem 0 0 = wrapping_dram_header ∧
      0xFFFFFFFF < wrapping_dram_header.dram_dest_addr + wrapping_dram_header.dram_size ∧
      first_failure wrapping_dram_env wrapping_dram_header = none ∧
      (esp_app_image_load wrapping_dram_env zero_mem 0 0).trace.countP
        Event.is_load_segment = 2 ∧
      (esp_app_image_load wrapping_dram_env zero_mem 0 0).trace.getLast? =
        some (Event.call_entry 0x40080000)) := by
  refine ⟨⟨?_, ?_, ?_, ?_⟩, ⟨?_, ?_, ?_, ?_, ?_⟩⟩ <;> decide

/-- C3: with IRAM and DRAM the intervals `[iram_low, iram_high)` and
`[dram_low, dram_high)`, a header with the right magic whose IRAM range or
DRAM range does not overflow 32 bits and holds an address outside its class
takes `esp_app_image_load` to the fatal halt, with no segment load and no call
of the entry; and an IRAM range that ends one byte past `iram_high` halts at
the IRAM check, with the IRAM diagnostic and no call of `load_segment`. -/
theorem range_outside_class_halts (env : Env) (mem : Nat → Nat) (slot : Int)
    (hdr_offset : Nat) (iram_low iram_high dram_low dram_high : Nat)
    (hI : ∀ p, env.esp_ptr_in_iram p = in_interval iram_low iram_high p)
    (hD : ∀ p, env.esp_ptr_in_dram p = in_interval dram_low dram_high p)
    (hmagic : (header_of env mem slot hdr_offset).header_magic = ESP_LOAD_HEADER_MAGIC) :
    (((header_of env mem slot hdr_offset).iram_dest_addr +
            (header_of env mem slot hdr_offset).iram_size ≤ 0xFFFFFFFF ∧
          ∃ a, (header_of env mem slot hdr_offset).iram_dest_addr ≤ a ∧
            a < (header_of env mem slot hdr_offset).iram_dest_addr +
              (header_of env mem slot hdr_offset).iram_size ∧
            env.esp_ptr_in_iram a = false) ∨
        ((header_of env mem slot hdr_offset).dram_dest_addr +
            (header_of env mem slot hdr_offset).dram_size ≤ 0xFFFFFFFF ∧
          ∃ a, (header_of env mem slot hdr_offset).dram_dest_addr ≤ a ∧
            a < (header_of env mem slot hdr_offset).dram_dest_addr +
              (header_of env mem slot hdr_offset).dram_size ∧
            env.esp_ptr_in_dram a = false) →
      (esp_app_image_load env mem slot hdr_offset).trace.getLast? = some Event.fih_panic ∧
        (esp_app_image_load env mem slot hdr_offset).trace.countP Event.is_load_segment = 0 ∧
        (esp_app_image_load env mem slot hdr_offset).trace.countP Event.is_call_entry = 0 ∧
        (esp_app_image_load env mem slot hdr_offset).mem = mem) ∧
    ((header_of env mem slot hdr_offset).iram_dest_addr +
          (header_of env mem slot hdr_offset).iram_size = iram_high + 1 →
      iram_high + 1 ≤ 0xFFFFFFFF →
      (esp_app_image_load env mem slot hdr_offset).trace =
          halted_trace env mem slot hdr_offset LogMsg.iram_region ∧
        (esp_app_image_load env mem slot hdr_offset).trace.countP Event.is_load_segment = 0) := by
  constructor
  · intro hesc
    have hfail : iram_check_fails env (header_of env mem slot hdr_offset) = true ∨
        dram_check_fails env (header_of env mem slot hdr_offset) = true := by
      rcases hesc with ⟨hno, a, h1, h2, h3⟩ | ⟨hno, a, h1, h2, h3⟩
      · exact Or.inl (end_points_detect_escape _ iram_low iram_high _ _ a hI hno h1 h2 h3)
      · exact Or.inr (end_points_detect_escape _ dram_low dram_high _ _ a hD hno h1 h2 h3)
    have hany : magic_check_fails (header_of env mem slot hdr_offset) = true ∨
        iram_check_fails env (header_of env mem slot hdr_offset) = true ∨
        dram_check_fails env (header_of env mem slot hdr_offset) = true ∨
        entry_check_fails env (header_of env mem slot hdr_offset) = true := by
      rcases hfail with h | h
      · exact Or.inr (Or.inl h)
      · exact Or.inr (Or.inr (Or.inl h))
    have hsome := (first_failure_isSome env (header_of env mem slot hdr_offset)).mpr hany
    obtain ⟨c, hc⟩ := Option.isSome_iff_exists.mp hsome
    obtain ⟨htrace, hmem⟩ := run_of_failure env mem slot hdr_offset c hc
    obtain ⟨h1, h2, _, _, h5⟩ := halted_trace_facts env mem slot hdr_offset
      (c.diagnostic (header_of env mem slot hdr_offset))
    rw [htrace]
    exact ⟨h1, h2, h5, hmem⟩
  · intro hend hno
    have hm : magic_check_fails (header_of env mem slot hdr_offset) = false := by
      simp [magic_check_fails, hmagic]
    have hiram : iram_check_fails env (header_of env mem slot hdr_offset) = true := by
      unfold iram_check_fails
      rw [hend, Nat.mod_eq_of_lt (by unfold UINT32_MOD; omega), hI (iram_high + 1)]
      simp [in_interval]
    have hc := first_failure_iram env _ hm hiram
    obtain ⟨htrace, _⟩ := run_of_failure env mem slot hdr_offset _ hc
    obtain ⟨_, h2, _⟩ := halted_trace_facts env mem slot hdr_offset LogMsg.iram_region
    rw [htrace]
    exact ⟨rfl, h2⟩

/-- C3, witness: on the ESP32 layout the IRAM range `[0x4009FF00, 0x400A0001)`
ends one byte past the upper bound and holds the address `0x400A0000`, which is
outside IRAM; the run halts with the IRAM diagnostic and never calls
`load_segment`. -/
theorem range_outside_class_halts_witness :
    (header_of one_past_iram_env zero_mem 0 0).header_magic = ESP_LOAD_HEADER_MAGIC ∧
      ((esp_app_image_load one_past_iram_env zero_mem 0 0).trace.getLast? =
          some Event.fih_panic ∧
        (esp_app_image_load one_past_iram_env zero_mem 0 0).trace.countP
          Event.is_load_segment = 0 ∧
        (esp_app_image_load one_past_iram_env zero_mem 0 0).trace.countP
          Event.is_call_entry = 0 ∧
        (esp_app_image_load one_past_iram_env zero_mem 0 0).mem = zero_mem) ∧
      ((esp_app_image_load one_past_iram_env zero_mem 0 0).trace =
          halted_trace one_past_iram_env zero_mem 0 0 LogMsg.iram_region ∧
        (esp_app_image_load one_past_iram_env zero_mem 0 0).trace.countP
          Event.is_load_segment = 0) :=
  ⟨by decide,
   (range_outside_class_halts one_past_iram_env zero_mem 0 0 0x40080000 0x400A0000 0x3FFAE000
      0x40000000 (fun _ => rfl) (fun _ => rfl) (by decide)).1
      (Or.inl ⟨by decide, 0x400A0000, by decide, by decide, by decide⟩),
   (range_outside_class_halts one_past_iram_env zero_mem 0 0 0x40080000 0x400A0000 0x3FFAE000
      0x40000000 (fun _ => rfl) (fun _ => rfl) (by decide)).2 (by decide) (by decide)⟩

/-- C4, counterexample: on the ESP32 layout two headers satisfy every premise of
the claim (right magic, every address of both half-open ranges in its class,
entry in IRAM) and are rejected: the IRAM range `[0x4009FF00, 0x400A0000)`
that ends exactly at the upper bound of IRAM halts with the IRAM diagnostic,
and the empty DRAM range at address 0 halts with the DRAM diagnostic. -/
theorem valid_header_rejected :
    ((header_of top_of_iram_env zero_mem 0 0).header_magic = ESP_LOAD_HEADER_MAGIC ∧
      (∀ a, (header_of top_of_iram_env zero_mem 0 0).iram_dest_addr ≤ a →
        a < (header_of top_of_iram_env zero_mem 0 0).iram_dest_addr +
          (header_of top_of_iram_env zero_mem 0 0).iram_size →
        top_of_iram_env.esp_ptr_in_iram a = true) ∧
      (∀ a, (header_of top_of_iram_env zero_mem 0 0).dram_dest_addr ≤ a →
        a < (header_of top_of_iram_env zero_mem 0 0).dram_dest_addr +
          (header_of top_of_iram_env zero_mem 0 0).dram_size →
        top_of_iram_env.esp_ptr_in_dram a = true) ∧
      top_of_iram_env.esp_ptr_in_iram (header_of top_of_iram_env zero_mem 0 0).entry_addr
        = true ∧
      iram_check_fails top_of_iram_env (header_of top_of_iram_env zero_mem 0 0) = true ∧
      (esp_app_image_load top_of_iram_env zero_mem 0 0).trace =
        [Event.flash_area_open 1 0,
         Event.bootloader_mmap 0x10000 32 (some 0x10000),
         Event.memcpy_header (some 0x10000),
         Event.bootloader_munmap (some 0x10000),
         Event.log_err LogMsg.iram_region,
         Event.fih_panic]) ∧
    ((header_of empty_dram_at_zero_env zero_mem 0 0).header_magic = ESP_LOAD_HEADER_MAGIC ∧
      (∀ a, (header_of empty_dram_at_zero_env zero_mem 0 0).iram_dest_addr ≤ a →
        a < (header_of empty_dram_at_zero_env zero_mem 0 0).iram_dest_addr +
          (header_of empty_dram_at_zero_env zero_mem 0 0).iram_size →
        empty_dram_at_zero_env.esp_ptr_in_iram a = true) ∧
      (∀ a, (header_of empty_dram_at_zero_env zero_mem 0 0).dram_dest_addr ≤ a →
        a < (header_of empty_dram_at_zero_env zero_mem 0 0).dram_dest_addr +
          (header_of empty_dram_at_zero_env zero_mem 0 0).dram_size →
        empty_dram_at_zero_env.esp_ptr_in_dram a = true) ∧
      empty_dram_at_zero_env.esp_ptr_in_iram
        (header_of empty_dram_at_zero_env zero_mem 0 0).entry_addr = true ∧
      dram_check_fails empty_dram_at_zero_env
        (header_of empty_dram_at_zero_env zero_mem 0 0) = true ∧
      (esp_app_image_load empty_dram_at_zero_env zero_mem 0 0).trace =
        [Event.flash_area_open 1 0,
         Event.bootloader_mmap 0x10000 32 (some 0x10000),
         Event.memcpy_header (some 0x10000),
         Event.bootloader_munmap (some 0x10000),
         Event.log_err LogMsg.dram_region,
         Event.fih_panic]) := by
  have hA : header_of top_of_iram_env zero_mem 0 0 = top_of_iram_header := by decide
  have hB : header_of empty_dram_at_zero_env zero_mem 0 0 = empty_dram_at_zero_header := by
    decide
  have hIA : ∀ p, top_of_iram_env.esp_ptr_in_iram p = in_interval 0x40080000 0x400A0000 p :=
    fun _ => rfl
  have hDA : ∀ p, top_of_iram_env.esp_ptr_in_dram p = in_interval 0x3FFAE000 0x40000000 p :=
    fun _ => rfl
  have hIB : ∀ p, empty_dram_at_zero_env.esp_ptr_in_iram p =
      in_interval 0x40080000 0x400A0000 p := fun _ => rfl
  have hDB : ∀ p, empty_dram_at_zero_env.esp_ptr_in_dram p =
      in_interval 0x3FFAE000 0x40000000 p := fun _ => rfl
  rw [hA, hB]
  refine ⟨⟨by decide, ?_, ?_, by decide, by decide, by decide⟩,
    ⟨by decide, ?_, ?_, by decide, by decide, by decide⟩⟩
  · intro a h1 h2
    rw [hIA]
    simp only [top_of_iram_header, good_header] at h1 h2
    simp only [in_interval, Bool.and_eq_true, decide_eq_true_eq]
    omega
  · intro a h1 h2
    rw [hDA]
    simp only [top_of_iram_header, good_header] at h1 h2
    simp only [in_interval, Bool.and_eq_true, decide_eq_true_eq]
    omega
  · intro a h1 h2
    rw [hIB]
    simp only [empty_dram_at_zero_header, good_header] at h1 h2
    simp only [in_interval, Bool.and_eq_true, decide_eq_true_eq]
    omega
  · intro a h1 h2
    simp only [empty_dram_at_zero_header, good_header] at h1 h2
    omega

/-- C4, amended: with IRAM and DRAM intervals of 32-bit addresses, a header
with the right magic, every address of the closed range
`[iram_dest_addr, iram_dest_addr + iram_size]` in IRAM, every address of the
closed range `[dram_dest_addr, dram_dest_addr + dram_size]` in DRAM and the
entry address in IRAM passes all four checks, and the run goes on to lines
92-102. -/
theorem header_with_end_points_in_class_accepted (env : Env) (mem : Nat → Nat) (slot : Int)
    (hdr_offset : Nat) (iram_low iram_high dram_low dram_high : Nat)
    (hI : ∀ p, env.esp_ptr_in_iram p = in_interval iram_low iram_high p)
    (hD : ∀ p, env.esp_ptr_in_dram p = in_interval dram_low dram_high p)
    (hIhigh : iram_high ≤ 2 ^ 32) (hDhigh : dram_high ≤ 2 ^ 32)
    (hmagic : (header_of env mem slot hdr_offset).header_magic = ESP_LOAD_HEADER_MAGIC)
    (hiram : ∀ a, (header_of env mem slot hdr_offset).iram_dest_addr ≤ a →
      a ≤ (header_of env mem slot hdr_offset).iram_dest_addr +
        (header_of env mem slot hdr_offset).iram_size →
      env.esp_ptr_in_iram a = true)
    (hdram : ∀ a, (header_of env mem slot hdr_offset).dram_dest_addr ≤ a →
      a ≤ (header_of env mem slot hdr_offset).dram_dest_addr +
        (header_of env mem slot hdr_offset).dram_size →
      env.esp_ptr_in_dram a = true)
    (hentry : env.esp_ptr_in_iram (header_of env mem slot hdr_offset).entry_addr = true) :
    magic_check_fails (header_of env mem slot hdr_offset) = false ∧
      iram_check_fails env (header_of env mem slot hdr_offset) = false ∧
      dram_check_fails env (header_of env mem slot hdr_offset) = false ∧
      entry_check_fails env (header_of env mem slot hdr_offset) = false ∧
      esp_app_image_load env mem slot hdr_offset =
        load_and_start env (read_load_header env mem slot hdr_offset).state
          (read_load_header env mem slot hdr_offset).fa_off
          (header_of env mem slot hdr_offset) := by
  have h1 : magic_check_fails (header_of env mem slot hdr_offset) = false := by
    simp [magic_check_fails, hmagic]
  have h2 : iram_check_fails env (header_of env mem slot hdr_offset) = false :=
    end_points_in_class_pass _ iram_low iram_high _ _ hI hIhigh
      (hiram _ (Nat.le_refl _) (Nat.le_add_right _ _)) (hiram _ (Nat.le_add_right _ _) (Nat.le_refl _))
  have h3 : dram_check_fails env (header_of env mem slot hdr_offset) = false :=
    end_points_in_class_pass _ dram_low dram_high _ _ hD hDhigh
      (hdram _ (Nat.le_refl _) (Nat.le_add_right _ _)) (hdram _ (Nat.le_add_right _ _) (Nat.le_refl _))
  have h4 : entry_check_fails env (header_of env mem slot hdr_offset) = false := by
    simp [entry_check_fails, hentry]
  exact ⟨h1, h2, h3, h4, run_of_pass env mem slot hdr_offset (first_failure_none env _ h1 h2 h3 h4)⟩

/-- C4 amended, witness: the well-formed header on the ESP32 layout. -/
theorem header_with_end_points_in_class_accepted_witness :
    (header_of good_env zero_mem 0 0).header_magic = ESP_LOAD_HEADER_MAGIC ∧
      good_env.esp_ptr_in_iram (header_of good_env zero_mem 0 0).entry_addr = true ∧
      magic_check_fails (header_of good_env zero_mem 0 0) = false ∧
      iram_check_fails good_env (header_of good_env zero_mem 0 0) = false ∧
      dram_check_fails good_env (header_of good_env zero_mem 0 0) = false ∧
      entry_check_fails good_env (header_of good_env zero_mem 0 0) = false ∧
      esp_app_image_load good_env zero_mem 0 0 =
        load_and_start good_env (read_load_header good_env zero_mem 0 0).state
          (read_load_header good_env zero_mem 0 0).fa_off
          (header_of good_env zero_mem 0 0) := by
  have hA : header_of good_env zero_mem 0 0 = good_header := by decide
  have hI : ∀ p, good_env.esp_ptr_in_iram p = in_interval 0x40080000 0x400A0000 p :=
    fun _ => rfl
  have hD : ∀ p, good_env.esp_ptr_in_dram p = in_interval 0x3FFAE000 0x40000000 p :=
    fun _ => rfl
  refine ⟨by decide, by decide,
    header_with_end_points_in_class_accepted good_env zero_mem 0 0 0x40080000 0x400A0000
      0x3FFAE000 0x40000000 hI hD (by norm_num) (by norm_num) (by decide) ?_ ?_ (by decide)⟩
  · intro a h1 h2
    rw [hA] at h1 h2
    rw [hI]
    simp only [good_header] at h1 h2
    simp only [in_interval, Bool.and_eq_true, decide_eq_true_eq]
    omega
  · intro a h1 h2
    rw [hA] at h1 h2
    rw [hD]
    simp only [good_header] at h1 h2
    simp only [in_interval, Bool.and_eq_true, decide_eq_true_eq]
    omega

/-- C5: for a header that passes the four checks, with every mapping
succeeding, `esp_app_image_load` performs after the header read exactly:
the data-segment log and `load_segment` on
`(dram_flash_offset, dram_size, dram_dest_addr)` (map, copy, unmap), the
instruction-segment log and `load_segment` on
`(iram_flash_offset, iram_size, iram_dest_addr)` (map, copy, unmap), the start
log, `uart_tx_wait_idle(0)` and the call through `entry_addr` (followed by
`FIH_PANIC` only if that call returns).  `load_segment` is entered exactly
twice, whatever `dram_size` is, and memory is the data copy followed by the
instruction copy. -/
theorem accepted_header_loads_data_then_code_then_jumps (env : Env) (mem : Nat → Nat)
    (slot : Int) (hdr_offset : Nat)
    (h1 : magic_check_fails (header_of env mem slot hdr_offset) = false)
    (h2 : iram_check_fails env (header_of env mem slot hdr_offset) = false)
    (h3 : dram_check_fails env (header_of env mem slot hdr_offset) = false)
    (h4 : entry_check_fails env (header_of env mem slot hdr_offset) = false)
    (hmap : ∀ n a l, env.mmap_ok n a l = true) :
    (esp_app_image_load env mem slot hdr_offset).trace =
        (read_load_header env mem slot hdr_offset).state.trace ++
          (Event.log_inf (LogMsg.dram_segment
              (header_of env mem slot hdr_offset).dram_flash_offset
              (header_of env mem slot hdr_offset).dram_size
              (header_of env mem slot hdr_offset).dram_dest_addr) ::
            segment_actions (header_of env mem slot hdr_offset).dram_flash_offset
              (header_of env mem slot hdr_offset).dram_size
              (header_of env mem slot hdr_offset).dram_dest_addr
              (((read_load_header env mem slot hdr_offset).fa_off +
                (header_of env mem slot hdr_offset).dram_flash_offset) % UINT32_MOD)) ++
          (Event.log_inf (LogMsg.iram_segment
              (header_of env mem slot hdr_offset).iram_flash_offset
              (header_of env mem slot hdr_offset).iram_size
              (header_of env mem slot hdr_offset).iram_dest_addr) ::
            segment_actions (header_of env mem slot hdr_offset).iram_flash_offset
              (header_of env mem slot hdr_offset).iram_size
              (header_of env mem slot hdr_offset).iram_dest_addr
              (((read_load_header env mem slot hdr_offset).fa_off +
                (header_of env mem slot hdr_offset).iram_flash_offset) % UINT32_MOD)) ++
          [Event.log_inf (LogMsg.start (header_of env mem slot hdr_offset).entry_addr),
            Event.uart_tx_wait_idle 0,
            Event.call_entry (header_of env mem slot hdr_offset).entry_addr] ++
          (if env.entry_returns (header_of env mem slot hdr_offset).entry_addr
            then [Event.fih_panic] else []) ∧
      (esp_app_image_load env mem slot hdr_offset).trace.countP Event.is_load_segment = 2 ∧
      (esp_app_image_load env mem slot hdr_offset).trace.countP Event.is_call_entry = 1 ∧
      (esp_app_image_load env mem slot hdr_offset).mem =
        memcpy (memcpy mem (header_of env mem slot hdr_offset).dram_dest_addr
            (view_byte env (some (((read_load_header env mem slot hdr_offset).fa_off +
              (header_of env mem slot hdr_offset).dram_flash_offset) % UINT32_MOD)))
            (header_of env mem slot hdr_offset).dram_size)
          (header_of env mem slot hdr_offset).iram_dest_addr
          (view_byte env (some (((read_load_header env mem slot hdr_offset).fa_off +
            (header_of env mem slot hdr_offset).iram_flash_offset) % UINT32_MOD)))
          (header_of env mem slot hdr_offset).iram_size := by
  have hrun := run_of_pass env mem slot hdr_offset (first_failure_none env _ h1 h2 h3 h4)
  obtain ⟨hmem, htrace⟩ := load_and_start_of_mapped env
    (read_load_header env mem slot hdr_offset).state
    (read_load_header env mem slot hdr_offset).fa_off (header_of env mem slot hdr_offset) hmap
  rw [hrun, htrace, hmem, read_load_header_mem]
  refine ⟨rfl, ?_, ?_, rfl⟩
  · rw [read_load_header_trace]
    simp only []
    split <;> split <;>
      simp [List.countP_cons, List.countP_append, Event.is_load_segment, segment_actions]
  · rw [read_load_header_trace]
    simp only []
    split <;> split <;>
      simp [List.countP_cons, List.countP_append, Event.is_call_entry, segment_actions]

/-- C5, witness: the ESP32 image whose header has `dram_size = 0`; both
`load_segment` calls are issued and the entry address is called once. -/
theorem accepted_header_loads_data_then_code_then_jumps_witness :
    (header_of empty_dram_env zero_mem 0 0).dram_size = 0 ∧
      (esp_app_image_load empty_dram_env zero_mem 0 0).trace.countP Event.is_load_segment = 2 ∧
      (esp_app_image_load empty_dram_env zero_mem 0 0).trace.countP Event.is_call_entry = 1 :=
  ⟨by decide,
   (accepted_header_loads_data_then_code_then_jumps empty_dram_env zero_mem 0 0 (by decide)
      (by decide) (by decide) (by decide) (fun _ _ _ => rfl)).2.1,
   (accepted_header_loads_data_then_code_then_jumps empty_dram_env zero_mem 0 0 (by decide)
      (by decide) (by decide) (by decide) (fun _ _ _ => rfl)).2.2.1⟩

/-- C6, at the failing inputs: with a header that passes validation, when the
mapping of the data segment fails, `load_segment` logs the failure and the run
still loads the instruction segment and calls the entry address; when the
mapping of the instruction segment fails, the run still calls the entry
address.  The fatal halt is not reached in either run. -/
theorem mapping_failure_is_not_escalated :
    (first_failure dram_unmapped_env (header_of dram_unmapped_env zero_mem 0 0) = none ∧
      (load_segment dram_unmapped_env (read_load_header dram_unmapped_env zero_mem 0 0).state
        0x10000 0x20 8 0x3FFB0000).1 = -1 ∧
      (esp_app_image_load dram_unmapped_env zero_mem 0 0).trace =
        [Event.flash_area_open 1 0,
         Event.bootloader_mmap 0x10000 32 (some 0x10000),
         Event.memcpy_header (some 0x10000),
         Event.bootloader_munmap (some 0x10000),
         Event.log_inf (LogMsg.dram_segment 0x20 8 0x3FFB0000),
         Event.load_segment 0x20 8 0x3FFB0000,
         Event.bootloader_mmap 0x10020 8 none,
         Event.log_err LogMsg.mmap_failed,
         Event.log_inf (LogMsg.iram_segment 0x28 4 0x40080000),
         Event.load_segment 0x28 4 0x40080000,
         Event.bootloader_mmap 0x10028 4 (some 0x10028),
         Event.memcpy_segment 0x40080000 (some 0x10028) 4,
         Event.bootloader_munmap (some 0x10028),
         Event.log_inf (LogMsg.start 0x40080000),
         Event.uart_tx_wait_idle 0,
         Event.call_entry 0x40080000]) ∧
    (first_failure iram_unmapped_env (header_of iram_unmapped_env zero_mem 0 0) = none ∧
      (esp_app_image_load iram_unmapped_env zero_mem 0 0).trace =
        [Event.flash_area_open 1 0,
         Event.bootloader_mmap 0x10000 32 (some 0x10000),
         Event.memcpy_header (some 0x10000),
         Event.bootloader_munmap (some 0x10000),
         Event.log_inf (LogMsg.dram_segment 0x20 8 0x3FFB0000),
         Event.load_segment 0x20 8 0x3FFB0000,
         Event.bootloader_mmap 0x10020 8 (some 0x10020),
         Event.memcpy_segment 0x3FFB0000 (some 0x10020) 8,
         Event.bootloader_munmap (some 0x10020),
         Event.log_inf (LogMsg.iram_segment 0x28 4 0x40080000),
         Event.load_segment 0x28 4 0x40080000,
         Event.bootloader_mmap 0x10028 4 none,
         Event.log_err LogMsg.mmap_failed,
         Event.log_inf (LogMsg.start 0x40080000),
         Event.uart_tx_wait_idle 0,
         Event.call_entry 0x40080000]) := by
  refine ⟨⟨?_, ?_, ?_⟩, ⟨?_, ?_⟩⟩ <;> decide

/-- C7, at the failing inputs: when `bootloader_mmap` returns `NULL` for the
header, `esp_app_image_load` still copies the header through the `NULL`
pointer and calls `bootloader_munmap(NULL)`; no mapping error is reported.
With zero bytes behind `NULL` the run halts on the magic check; with bytes
that spell a well-formed header it loads both segments and calls the entry. -/
theorem unmapped_header_is_read_through_null :
    ((esp_app_image_load header_unmapped_env zero_mem 0 0).trace =
        [Event.flash_area_open 1 0,
         Event.bootloader_mmap 0x10000 32 none,
         Event.memcpy_header none,
         Event.bootloader_munmap none,
         Event.log_err LogMsg.header_magic,
         Event.fih_panic]) ∧
    (header_of header_unmapped_lucky_env zero_mem 0 0 = good_header ∧
      (esp_app_image_load header_unmapped_lucky_env zero_mem 0 0).trace =
        [Event.flash_area_open 1 0,
         Event.bootloader_mmap 0x10000 32 none,
         Event.memcpy_header none,
         Event.bootloader_munmap none,
         Event.log_inf (LogMsg.dram_segment 0x20 8 0x3FFB0000),
         Event.load_segment 0x20 8 0x3FFB0000,
         Event.bootloader_mmap 0x10020 8 (some 0x10020),
         Event.memcpy_segment 0x3FFB0000 (some 0x10020) 8,
         Event.bootloader_munmap (some 0x10020),
         Event.log_inf (LogMsg.iram_segment 0x28 4 0x40080000),
         Event.load_segment 0x28 4 0x40080000,
         Event.bootloader_mmap 0x10028 4 (some 0x10028),
         Event.memcpy_segment 0x40080000 (some 0x10028) 4,
         Event.bootloader_munmap (some 0x10028),
         Event.log_inf (LogMsg.start 0x40080000),
         Event.uart_tx_wait_idle 0,
         Event.call_entry 0x40080000]) := by
  refine ⟨?_, ⟨?_, ?_⟩⟩ <;> decide

/-- C8: when the mapping succeeds, `load_segment` returns 0; afterwards byte
`load_addr + i` of memory equals flash byte `(fa_off + data_addr) + i` (the
sum being the 32-bit sum the code passes to `bootloader_mmap`) for every
`i < data_len`, every address outside `[load_addr, load_addr + data_len)` is
unchanged, and for `data_len = 0` memory is unchanged altogether. -/
theorem load_segment_copies_byte_exact (env : Env) (s : State)
    (fa_off data_addr data_len load_addr : Nat)
    (hok : env.mmap_ok s.mmap_calls ((fa_off + data_addr) % UINT32_MOD) data_len = true) :
    (load_segment env s fa_off data_addr data_len load_addr).1 = 0 ∧
      (∀ i, i < data_len →
        (load_segment env s fa_off data_addr data_len load_addr).2.mem (load_addr + i) =
          flash_byte env ((fa_off + data_addr) % UINT32_MOD + i)) ∧
      (∀ a, ¬ (load_addr ≤ a ∧ a < load_addr + data_len) →
        (load_segment env s fa_off data_addr data_len load_addr).2.mem a = s.mem a) ∧
      (data_len = 0 →
        (load_segment env s fa_off data_addr data_len load_addr).2.mem = s.mem) := by
  rw [load_segment_of_mapped env s fa_off data_addr data_len load_addr hok]
  refine ⟨rfl, ?_, ?_, ?_⟩
  · intro i hi
    have hin : load_addr ≤ load_addr + i ∧ load_addr + i < load_addr + data_len := by omega
    simp [memcpy_apply, hin, view_byte]
  · intro a ha
    simp [memcpy_apply, ha]
  · intro hzero
    subst hzero
    rfl

/-- C8, witness: loading the 8 data bytes of the well-formed ESP32 image. -/
theorem load_segment_copies_byte_exact_witness :
    good_env.mmap_ok (State.init zero_mem).mmap_calls ((0x10000 + 0x20) % UINT32_MOD) 8 = true ∧
      (load_segment good_env (State.init zero_mem) 0x10000 0x20 8 0x3FFB0000).1 = 0 ∧
      (∀ i, i < 8 →
        (load_segment good_env (State.init zero_mem) 0x10000 0x20 8 0x3FFB0000).2.mem
            (0x3FFB0000 + i) =
          flash_byte good_env ((0x10000 + 0x20) % UINT32_MOD + i)) ∧
      (∀ a, ¬ (0x3FFB0000 ≤ a ∧ a < 0x3FFB0000 + 8) →
        (load_segment good_env (State.init zero_mem) 0x10000 0x20 8 0x3FFB0000).2.mem a =
          (State.init zero_mem).mem a) ∧
      (8 = 0 →
        (load_segment good_env (State.init zero_mem) 0x10000 0x20 8 0x3FFB0000).2.mem =
          (State.init zero_mem).mem) :=
  ⟨rfl, load_segment_copies_byte_exact good_env (State.init zero_mem) 0x10000 0x20 8 0x3FFB0000
    rfl⟩

/-- C9: when every mapping succeeds, on the success path and on each of the
four validation-failure paths alike, the trace of `esp_app_image_load`
respects the view discipline: a view is acquired only when the one before has
been released, each `bootloader_munmap` releases the view held, no view is
held at `FIH_PANIC` or at the call through the entry address, none is left at
the end, and acquisitions and releases are equal in number. -/
theorem every_view_released_exactly_once (env : Env) (mem : Nat → Nat) (slot : Int)
    (hdr_offset : Nat) (hmap : ∀ n a l, env.mmap_ok n a l = true) :
    views_paired none (esp_app_image_load env mem slot hdr_offset).trace = true ∧
      (esp_app_image_load env mem slot hdr_offset).trace.countP Event.is_acquire =
        (esp_app_image_load env mem slot hdr_offset).trace.countP Event.is_munmap := by
  cases hc : first_failure env (header_of env mem slot hdr_offset) with
  | some c =>
    obtain ⟨htrace, _⟩ := run_of_failure env mem slot hdr_offset c hc
    rw [htrace]
    unfold halted_trace
    rw [read_load_header_trace]
    simp only [hmap, if_true]
    constructor <;>
      (split <;> simp [views_paired, view_step, List.countP_cons, Event.is_acquire,
        Event.is_munmap])
  | none =>
    have hrun := run_of_pass env mem slot hdr_offset hc
    obtain ⟨_, htrace⟩ := load_and_start_of_mapped env
      (read_load_header env mem slot hdr_offset).state
      (read_load_header env mem slot hdr_offset).fa_off (header_of env mem slot hdr_offset) hmap
    rw [hrun, htrace, read_load_header_trace]
    simp only [hmap, if_true, segment_actions]
    constructor <;>
      (split <;> split <;> simp [views_paired, view_step, List.countP_cons, List.countP_append,
        Event.is_acquire, Event.is_munmap])

/-- C9, witness: the well-formed ESP32 image, every mapping succeeding. -/
theorem every_view_released_exactly_once_witness :
    views_paired none (esp_app_image_load good_env zero_mem 0 0).trace = true ∧
      (esp_app_image_load good_env zero_mem 0 0).trace.countP Event.is_acquire =
        (esp_app_image_load good_env zero_mem 0 0).trace.countP Event.is_munmap :=
  every_view_released_exactly_once good_env zero_mem 0 0 (fun _ _ _ => rfl)

/-- C10: the checks run in the order magic, IRAM range, DRAM range, entry point
and stop at the first failure: the last two actions of the run are the
diagnostic of the first failing check and `FIH_PANIC`.  A wrong magic is
reported as a header-magic failure whatever the other fields are; with the
right magic an invalid IRAM range is reported as an IRAM-region failure
whatever the DRAM range and the entry are; and so on down the order. -/
theorem first_failing_check_is_reported (env : Env) (mem : Nat → Nat) (slot : Int)
    (hdr_offset : Nat) :
    (magic_check_fails (header_of env mem slot hdr_offset) = true →
      (esp_app_image_load env mem slot hdr_offset).trace =
        (read_load_header env mem slot hdr_offset).state.trace ++
          [Event.log_err LogMsg.header_magic, Event.fih_panic]) ∧
    (magic_check_fails (header_of env mem slot hdr_offset) = false →
      iram_check_fails env (header_of env mem slot hdr_offset) = true →
      (esp_app_image_load env mem slot hdr_offset).trace =
        (read_load_header env mem slot hdr_offset).state.trace ++
          [Event.log_err LogMsg.iram_region, Event.fih_panic]) ∧
    (magic_check_fails (header_of env mem slot hdr_offset) = false →
      iram_check_fails env (header_of env mem slot hdr_offset) = false →
      dram_check_fails env (header_of env mem slot hdr_offset) = true →
      (esp_app_image_load env mem slot hdr_offset).trace =
        (read_load_header env mem slot hdr_offset).state.trace ++
          [Event.log_err LogMsg.dram_region, Event.fih_panic]) ∧
    (magic_check_fails (header_of env mem slot hdr_offset) = false →
      iram_check_fails env (header_of env mem slot hdr_offset) = false →
      dram_check_fails env (header_of env mem slot hdr_offset) = false →
      entry_check_fails env (header_of env mem slot hdr_offset) = true →
      (esp_app_image_load env mem slot hdr_offset).trace =
        (read_load_header env mem slot hdr_offset).state.trace ++
          [Event.log_err (LogMsg.entry_point (header_of env mem slot hdr_offset).entry_addr),
            Event.fih_panic]) ∧
    (∀ c, first_failure env (header_of env mem slot hdr_offset) = some c →
      (esp_app_image_load env mem slot hdr_offset).trace =
        (read_load_header env mem slot hdr_offset).state.trace ++
          [Event.log_err (c.diagnostic (header_of env mem slot hdr_offset)),
            Event.fih_panic]) := by
  have key : ∀ c, first_failure env (header_of env mem slot hdr_offset) = some c →
      (esp_app_image_load env mem slot hdr_offset).trace =
        (read_load_header env mem slot hdr_offset).state.trace ++
          [Event.log_err (c.diagnostic (header_of env mem slot hdr_offset)),
            Event.fih_panic] :=
    fun c hc => (run_of_failure env mem slot hdr_offset c hc).1
  refine ⟨?_, ?_, ?_, ?_, key⟩
  · intro h1
    exact key ValidationError.HeaderMagicMismatch
      (by simp [first_failure, List.find?, ValidationError.fails, h1])
  · intro h1 h2
    exact key ValidationError.InstrRegionInvalid (first_failure_iram env _ h1 h2)
  · intro h1 h2 h3
    exact key ValidationError.DataRegionInvalid
      (by simp [first_failure, List.find?, ValidationError.fails, h1, h2, h3])
  · intro h1 h2 h3 h4
    exact key ValidationError.EntryPointInvalid
      (by simp [first_failure, List.find?, ValidationError.fails, h1, h2, h3, h4])

/-- C10, witness: a header with a wrong magic and an invalid IRAM range is
reported as a header-magic failure, and a header with the right magic, an
invalid IRAM range and an invalid entry is reported as an IRAM-region
failure. -/
theorem first_failing_check_is_reported_witness :
    (magic_check_fails (header_of bad_magic_bad_iram_env zero_mem 0 0) = true ∧
      iram_check_fails bad_magic_bad_iram_env (header_of bad_magic_bad_iram_env zero_mem 0 0)
        = true ∧
      (esp_app_image_load bad_magic_bad_iram_env zero_mem 0 0).trace =
        (read_load_header bad_magic_bad_iram_env zero_mem 0 0).state.trace ++
          [Event.log_err LogMsg.header_magic, Event.fih_panic]) ∧
    (magic_check_fails (header_of bad_iram_bad_entry_env zero_mem 0 0) = false ∧
      iram_check_fails bad_iram_bad_entry_env (header_of bad_iram_bad_entry_env zero_mem 0 0)
        = true ∧
      entry_check_fails bad_iram_bad_entry_env (header_of bad_iram_bad_entry_env zero_mem 0 0)
        = true ∧
      (esp_app_image_load bad_iram_bad_entry_env zero_mem 0 0).trace =
        (read_load_header bad_iram_bad_entry_env zero_mem 0 0).state.trace ++
          [Event.log_err LogMsg.iram_region, Event.fih_panic]) :=
  ⟨⟨by decide, by decide,
    (first_failing_check_is_reported bad_magic_bad_iram_env zero_mem 0 0).1 (by decide)⟩,
   ⟨by decide, by decide, by decide,
    (first_failing_check_is_reported bad_iram_bad_entry_env zero_mem 0 0).2.1 (by decide)
      (by decide)⟩⟩

/-- C11: every run of `esp_app_image_load` ends either in `FIH_PANIC` or in the
call through the entry address: either a check fails and the last action is
the fatal halt, with no call of the entry, or the actions are a sequence free
of entry calls and halts, then the call through `entry_addr`, then, exactly
when that call returns, `FIH_PANIC` and nothing else.  In particular the last
action is the fatal halt unless the entry was called and did not return. -/
theorem run_ends_in_halt_or_entry_call (env : Env) (mem : Nat → Nat) (slot : Int)
    (hdr_offset : Nat) :
    (((first_failure env (header_of env mem slot hdr_offset)).isSome = true ∧
        (esp_app_image_load env mem slot hdr_offset).trace.getLast? = some Event.fih_panic ∧
        (esp_app_image_load env mem slot hdr_offset).trace.countP Event.is_call_entry = 0) ∨
      (first_failure env (header_of env mem slot hdr_offset) = none ∧
        ∃ before, before.countP Event.is_call_entry = 0 ∧
          before.countP Event.is_fih_panic = 0 ∧
          (esp_app_image_load env mem slot hdr_offset).trace =
            before ++ Event.call_entry (header_of env mem slot hdr_offset).entry_addr ::
              (if env.entry_returns (header_of env mem slot hdr_offset).entry_addr
                then [Event.fih_panic] else []))) ∧
    ((esp_app_image_load env mem slot hdr_offset).trace.getLast? = some Event.fih_panic ∨
      ((esp_app_image_load env mem slot hdr_offset).trace.getLast? =
          some (Event.call_entry (header_of env mem slot hdr_offset).entry_addr) ∧
        env.entry_returns (header_of env mem slot hdr_offset).entry_addr = false)) := by
  cases hc : first_failure env (header_of env mem slot hdr_offset) with
  | some c =>
    obtain ⟨htrace, _⟩ := run_of_failure env mem slot hdr_offset c hc
    obtain ⟨h1, _, _, _, h5⟩ := halted_trace_facts env mem slot hdr_offset
      (c.diagnostic (header_of env mem slot hdr_offset))
    rw [htrace]
    exact ⟨Or.inl ⟨rfl, h1, h5⟩, Or.inl h1⟩
  | none =>
    have hrun := run_of_pass env mem slot hdr_offset hc
    have htrace := load_and_start_trace env (read_load_header env mem slot hdr_offset).state
      (read_load_header env mem slot hdr_offset).fa_off (header_of env mem slot hdr_offset)
    rw [hrun, htrace]
    obtain ⟨hr1, hr2⟩ := read_load_header_quiet env mem slot hdr_offset
    obtain ⟨hd1, hd2⟩ := load_segment_actions_quiet env
      (read_load_header env mem slot hdr_offset).state.mmap_calls
      (read_load_header env mem slot hdr_offset).fa_off
      (header_of env mem slot hdr_offset).dram_flash_offset
      (header_of env mem slot hdr_offset).dram_size
      (header_of env mem slot hdr_offset).dram_dest_addr
    obtain ⟨hi1, hi2⟩ := load_segment_actions_quiet env
      ((read_load_header env mem slot hdr_offset).state.mmap_calls + 1)
      (read_load_header env mem slot hdr_offset).fa_off
      (header_of env mem slot hdr_offset).iram_flash_offset
      (header_of env mem slot hdr_offset).iram_size
      (header_of env mem slot hdr_offset).iram_dest_addr
    refine ⟨Or.inr ⟨rfl, _, ?_, ?_, rfl⟩, ?_⟩
    · simp [load_actions, List.countP_append, List.countP_cons, hr1, hd1, hi1,
        Event.is_call_entry]
    · simp [load_actions, List.countP_append, List.countP_cons, hr2, hd2, hi2,
        Event.is_fih_panic]
    · cases hret : env.entry_returns (header_of env mem slot hdr_offset).entry_addr
      · right
        refine ⟨?_, rfl⟩
        simp [List.getLast?_append]
      · left
        simp [List.getLast?_append]

/-- C11, instance: on the ESP32 platform whose entry call returns, the run of
the well-formed image ends with the call through `0x40080000` followed by
`FIH_PANIC`. -/
theorem run_ends_in_halt_or_entry_call_witness :
    returning_entry_env.entry_returns (header_of returning_entry_env zero_mem 0 0).entry_addr
        = true ∧
      ((esp_app_image_load returning_entry_env zero_mem 0 0).trace.getLast? =
          some Event.fih_panic ∨
        ((esp_app_image_load returning_entry_env zero_mem 0 0).trace.getLast? =
            some (Event.call_entry (header_of returning_entry_env zero_mem 0 0).entry_addr) ∧
          returning_entry_env.entry_returns
            (header_of returning_entry_env zero_mem 0 0).entry_addr = false)) :=
  ⟨by decide, (run_ends_in_halt_or_entry_call returning_entry_env zero_mem 0 0).2⟩

/-- C12, at the failing input: on the ESP32 layout, whose IRAM and DRAM are
disjoint, the header with the DRAM range `0x3FFB0010 + 0xFFFFFFF8` and the IRAM
range `[0x40080000, 0x40080004)` is accepted, and the address `0x40080000`
belongs to both destination ranges: the data copy stores the flash byte `0`
there, and the instruction copy then overwrites it with `0xEF`. -/
theorem accepted_segments_overlap :
    first_failure wrapping_dram_env (header_of wrapping_dram_env pattern_mem 0 0) = none ∧
      ((header_of wrapping_dram_env pattern_mem 0 0).dram_dest_addr ≤ 0x40080000 ∧
        0x40080000 < (header_of wrapping_dram_env pattern_mem 0 0).dram_dest_addr +
          (header_of wrapping_dram_env pattern_mem 0 0).dram_size) ∧
      ((header_of wrapping_dram_env pattern_mem 0 0).iram_dest_addr ≤ 0x40080000 ∧
        0x40080000 < (header_of wrapping_dram_env pattern_mem 0 0).iram_dest_addr +
          (header_of wrapping_dram_env pattern_mem 0 0).iram_size) ∧
      pattern_mem 0x40080000 = 0xAA ∧
      (load_segment wrapping_dram_env (read_load_header wrapping_dram_env pattern_mem 0 0).state
        0x10000 0x20 0xFFFFFFF8 0x3FFB0010).2.mem 0x40080000 = 0 ∧
      (esp_app_image_load wrapping_dram_env pattern_mem 0 0).mem 0x40080000 = 0xEF := by
  have hc : first_failure wrapping_dram_env (header_of wrapping_dram_env pattern_mem 0 0)
      = none := by decide
  have hh : header_of wrapping_dram_env pattern_mem 0 0 = wrapping_dram_header := by decide
  have hfa : (read_load_header wrapping_dram_env pattern_mem 0 0).fa_off = 0x10000 := rfl
  have hmap : ∀ n a l, wrapping_dram_env.mmap_ok n a l = true := fun _ _ _ => rfl
  refine ⟨hc, by decide, by decide, rfl, ?_, ?_⟩
  · rw [load_segment_of_mapped _ _ _ _ _ _ (hmap _ _ _)]
    simp only [memcpy_apply]
    have hin : 0x3FFB0010 ≤ 0x40080000 ∧ 0x40080000 < 0x3FFB0010 + 0xFFFFFFF8 := by decide
    rw [if_pos hin]
    decide
  · rw [run_of_pass wrapping_dram_env pattern_mem 0 0 hc]
    rw [(load_and_start_of_mapped wrapping_dram_env _ _ _ hmap).1, hh, hfa]
    simp only [memcpy_apply]
    have hin : wrapping_dram_header.iram_dest_addr ≤ 0x40080000 ∧
        0x40080000 < wrapping_dram_header.iram_dest_addr + wrapping_dram_header.iram_size := by
      decide
    rw [if_pos hin]
    decide

/-- C13, counterexample: on the ESP32 layout the header with `iram_size = 0` and
`iram_dest_addr = 0` fails the IRAM range check and the run halts with the
IRAM diagnostic; the header with `dram_size = 0` and `dram_dest_addr = 0`
fails the DRAM range check. -/
theorem zero_size_range_rejected :
    ((header_of empty_iram_at_zero_env zero_mem 0 0).iram_size = 0 ∧
      iram_check_fails empty_iram_at_zero_env (header_of empty_iram_at_zero_env zero_mem 0 0)
        = true ∧
      (esp_app_image_load empty_iram_at_zero_env zero_mem 0 0).trace =
        [Event.flash_area_open 1 0,
         Event.bootloader_mmap 0x10000 32 (some 0x10000),
         Event.memcpy_header (some 0x10000),
         Event.bootloader_munmap (some 0x10000),
         Event.log_err LogMsg.iram_region,
         Event.fih_panic]) ∧
    ((header_of empty_dram_at_zero_env zero_mem 0 0).dram_size = 0 ∧
      dram_check_fails empty_dram_at_zero_env (header_of empty_dram_at_zero_env zero_mem 0 0)
        = true) := by
  refine ⟨⟨?_, ?_, ?_⟩, ⟨?_, ?_⟩⟩ <;> decide

/-- C13, amended: for a header with `iram_size == 0` the IRAM range check passes
exactly when `iram_dest_addr` is in IRAM, and for a header with
`dram_size == 0` the DRAM range check passes exactly when `dram_dest_addr` is
in DRAM. -/
theorem zero_size_range_passes_iff_start_in_class (env : Env) (mem : Nat → Nat) (slot : Int)
    (hdr_offset : Nat) :
    ((header_of env mem slot hdr_offset).iram_size = 0 →
      (iram_check_fails env (header_of env mem slot hdr_offset) = false ↔
        env.esp_ptr_in_iram (header_of env mem slot hdr_offset).iram_dest_addr = true)) ∧
    ((header_of env mem slot hdr_offset).dram_size = 0 →
      (dram_check_fails env (header_of env mem slot hdr_offset) = false ↔
        env.esp_ptr_in_dram (header_of env mem slot hdr_offset).dram_dest_addr = true)) := by
  obtain ⟨hi, hd⟩ := header_of_dest_lt env mem slot hdr_offset
  constructor
  · intro hz
    unfold iram_check_fails
    rw [hz, Nat.add_zero, Nat.mod_eq_of_lt hi]
    cases env.esp_ptr_in_iram (header_of env mem slot hdr_offset).iram_dest_addr <;> simp
  · intro hz
    unfold dram_check_fails
    rw [hz, Nat.add_zero, Nat.mod_eq_of_lt hd]
    cases env.esp_ptr_in_dram (header_of env mem slot hdr_offset).dram_dest_addr <;> simp

/-- C13 amended, witness: the ESP32 image with `dram_size = 0` and
`dram_dest_addr = 0x3FFB0000`, which is in DRAM. -/
theorem zero_size_range_passes_iff_start_in_class_witness :
    (header_of empty_dram_env zero_mem 0 0).dram_size = 0 ∧
      (dram_check_fails empty_dram_env (header_of empty_dram_env zero_mem 0 0) = false ↔
        empty_dram_env.esp_ptr_in_dram (header_of empty_dram_env zero_mem 0 0).dram_dest_addr
          = true) :=
  ⟨by decide,
   (zero_size_range_passes_iff_start_in_class empty_dram_env zero_mem 0 0).2 (by decide)⟩

/-- C14: when `flash_area_open` returns a non-zero code, `esp_app_image_load`
logs the failure and goes on: its first three actions are the call of
`flash_area_open`, the error log and the call of `bootloader_mmap` at the
32-bit sum of the offset read through the handle and `hdr_offset`, for
`sizeof(image_load_header_t)` bytes; no `FIH_PANIC` comes in between. -/
theorem failed_slot_resolution_only_logs (env : Env) (mem : Nat → Nat) (slot : Int)
    (hdr_offset : Nat)
    (hrc : (env.flash_area_open (env.flash_area_id_from_image_slot slot)).1 ≠ 0) :
    ∃ data, (esp_app_image_load env mem slot hdr_offset).trace.take 3 =
      [Event.flash_area_open (env.flash_area_id_from_image_slot slot)
          (env.flash_area_open (env.flash_area_id_from_image_slot slot)).1,
        Event.log_err (LogMsg.flash_area_open_failed
          (env.flash_area_open (env.flash_area_id_from_image_slot slot)).1),
        Event.bootloader_mmap
          (((env.flash_area_open (env.flash_area_id_from_image_slot slot)).2 + hdr_offset)
            % UINT32_MOD)
          SIZEOF_LOAD_HEADER data] := by
  obtain ⟨rest, hrest⟩ := run_trace_starts_with_read env mem slot hdr_offset
  rw [hrest, read_load_header_trace]
  simp [hrc]

/-- C14, witness: the ESP32 platform on which `flash_area_open` returns `-1` and
the handle yields the offset `0x20000`. -/
theorem failed_slot_resolution_only_logs_witness :
    (unresolved_slot_env.flash_area_open
        (unresolved_slot_env.flash_area_id_from_image_slot 0)).1 ≠ 0 ∧
      ∃ data, (esp_app_image_load unresolved_slot_env zero_mem 0 0x40).trace.take 3 =
        [Event.flash_area_open (unresolved_slot_env.flash_area_id_from_image_slot 0)
            (unresolved_slot_env.flash_area_open
              (unresolved_slot_env.flash_area_id_from_image_slot 0)).1,
          Event.log_err (LogMsg.flash_area_open_failed
            (unresolved_slot_env.flash_area_open
              (unresolved_slot_env.flash_area_id_from_image_slot 0)).1),
          Event.bootloader_mmap
            (((unresolved_slot_env.flash_area_open
                (unresolved_slot_env.flash_area_id_from_image_slot 0)).2 + 0x40) % UINT32_MOD)
            SIZEOF_LOAD_HEADER data] :=
  ⟨by decide, failed_slot_resolution_only_logs unresolved_slot_env zero_mem 0 0x40 (by decide)⟩

/-- C15: `esp_app_image_load` reaches a `load_segment` call if and only if
`header_magic == 0xace637d3`, `iram_dest_addr` and
`(iram_dest_addr + iram_size) mod 2^32` are in IRAM, `dram_dest_addr` and
`(dram_dest_addr + dram_size) mod 2^32` are in DRAM, and `entry_addr` is in
IRAM.  Only the two end points of each range are tested, the end inclusively,
and the two flash offsets play no part: changing them changes no check. -/
theorem acceptance_condition_exact (env : Env) (mem : Nat → Nat) (slot : Int)
    (hdr_offset : Nat) :
    (0 < (esp_app_image_load env mem slot hdr_offset).trace.countP Event.is_load_segment ↔
      ((header_of env mem slot hdr_offset).header_magic = ESP_LOAD_HEADER_MAGIC ∧
        env.esp_ptr_in_iram (header_of env mem slot hdr_offset).iram_dest_addr = true ∧
        env.esp_ptr_in_iram (((header_of env mem slot hdr_offset).iram_dest_addr +
          (header_of env mem slot hdr_offset).iram_size) % UINT32_MOD) = true ∧
        env.esp_ptr_in_dram (header_of env mem slot hdr_offset).dram_dest_addr = true ∧
        env.esp_ptr_in_dram (((header_of env mem slot hdr_offset).dram_dest_addr +
          (header_of env mem slot hdr_offset).dram_size) % UINT32_MOD) = true ∧
        env.esp_ptr_in_iram (header_of env mem slot hdr_offset).entry_addr = true)) ∧
    (∀ (h : image_load_header) (x y : Nat),
      magic_check_fails { h with iram_flash_offset := x, dram_flash_offset := y } =
          magic_check_fails h ∧
        iram_check_fails env { h with iram_flash_offset := x, dram_flash_offset := y } =
          iram_check_fails env h ∧
        dram_check_fails env { h with iram_flash_offset := x, dram_flash_offset := y } =
          dram_check_fails env h ∧
        entry_check_fails env { h with iram_flash_offset := x, dram_flash_offset := y } =
          entry_check_fails env h) := by
  refine ⟨?_, fun h x y => ⟨rfl, rfl, rfl, rfl⟩⟩
  rw [← first_failure_eq_none_iff]
  cases hc : first_failure env (header_of env mem slot hdr_offset) with
  | some c =>
    obtain ⟨htrace, _⟩ := run_of_failure env mem slot hdr_offset c hc
    obtain ⟨_, h2, _⟩ := halted_trace_facts env mem slot hdr_offset
      (c.diagnostic (header_of env mem slot hdr_offset))
    rw [htrace, h2]
    simp
  | none =>
    rw [run_of_pass env mem slot hdr_offset hc, load_and_start_trace]
    rw [List.countP_append, List.countP_append, load_actions_count]
    simp

/-- C16: when `bootloader_mmap` returns `NULL`, `load_segment` returns -1, leaves
every byte of memory as it was and performs only its entry, the failed
mapping and the error log, so `bootloader_munmap` is not called; and
`load_segment` returns 0 exactly when the mapping succeeded. -/
theorem load_segment_atomic_on_failure (env : Env) (s : State)
    (fa_off data_addr data_len load_addr : Nat) :
    (env.mmap_ok s.mmap_calls ((fa_off + data_addr) % UINT32_MOD) data_len = false →
      (load_segment env s fa_off data_addr data_len load_addr).1 = -1 ∧
        (load_segment env s fa_off data_addr data_len load_addr).2.mem = s.mem ∧
        (load_segment env s fa_off data_addr data_len load_addr).2.trace =
          s.trace ++ [Event.load_segment data_addr data_len load_addr,
            Event.bootloader_mmap ((fa_off + data_addr) % UINT32_MOD) data_len none,
            Event.log_err LogMsg.mmap_failed] ∧
        (load_segment env s fa_off data_addr data_len load_addr).2.trace.countP
            Event.is_munmap = s.trace.countP Event.is_munmap) ∧
    ((load_segment env s fa_off data_addr data_len load_addr).1 = 0 ↔
      env.mmap_ok s.mmap_calls ((fa_off + data_addr) % UINT32_MOD) data_len = true) := by
  cases hok : env.mmap_ok s.mmap_calls ((fa_off + data_addr) % UINT32_MOD) data_len
  · rw [load_segment_of_unmapped env s fa_off data_addr data_len load_addr hok]
    simp [List.countP_append, List.countP_cons, Event.is_munmap]
  · rw [load_segment_of_mapped env s fa_off data_addr data_len load_addr hok]
    simp

/-- C16, witness: the data-segment call on the ESP32 platform whose second
`bootloader_mmap` call returns `NULL`. -/
theorem load_segment_atomic_on_failure_witness :
    dram_unmapped_env.mmap_ok (read_load_header dram_unmapped_env zero_mem 0 0).state.mmap_calls
        ((0x10000 + 0x20) % UINT32_MOD) 8 = false ∧
      (load_segment dram_unmapped_env (read_load_header dram_unmapped_env zero_mem 0 0).state
          0x10000 0x20 8 0x3FFB0000).1 = -1 ∧
      (load_segment dram_unmapped_env (read_load_header dram_unmapped_env zero_mem 0 0).state
          0x10000 0x20 8 0x3FFB0000).2.mem =
        (read_load_header dram_unmapped_env zero_mem 0 0).state.mem ∧
      (load_segment dram_unmapped_env (read_load_header dram_unmapped_env zero_mem 0 0).state
          0x10000 0x20 8 0x3FFB0000).2.trace =
        (read_load_header dram_unmapped_env zero_mem 0 0).state.trace ++
          [Event.load_segment 0x20 8 0x3FFB0000,
            Event.bootloader_mmap ((0x10000 + 0x20) % UINT32_MOD) 8 none,
            Event.log_err LogMsg.mmap_failed] ∧
      (load_segment dram_unmapped_env (read_load_header dram_unmapped_env zero_mem 0 0).state
          0x10000 0x20 8 0x3FFB0000).2.trace.countP Event.is_munmap =
        (read_load_header dram_unmapped_env zero_mem 0 0).state.trace.countP Event.is_munmap :=
  ⟨by decide,
   (load_segment_atomic_on_failure dram_unmapped_env
      (read_load_header dram_unmapped_env zero_mem 0 0).state 0x10000 0x20 8 0x3FFB0000).1
      (by decide)⟩

end EspLoader
